import Mathlib

/-
Verification development for the PosturePerfect repository.

The repository contains two sibling packages:
  * `RepWise`     — MediaPipe based (dense 33-landmark scheme),
  * `RepWiseYolo` — YOLO based (sparse 17-keypoint COCO scheme).

Each exercise rule module is a per-frame function
`process_X(image, landmarks, w, h, rep_counter, exercise_state, feedback_text)`
returning `(rep_counter', exercise_state', feedback_text'[, speech_text'])`.
The drawing calls (`cv2.line`, `cv2.circle`, `cv2.putText`) only render the
already-computed colors and angles and do not influence the returned values,
so the embedding of each module is the pure function from the computed
angles and the threaded state to the returned tuple.  Angles are embedded
as exact rationals (the Python code compares IEEE doubles against integer
thresholds; every branch condition is an order comparison, faithfully
represented over `ℚ`).  The phase state is embedded as `String`, exactly as
in the source, so that unrecognized states fall through every branch just
as they do in Python.
-/

/-- Python `int(x)` truncation toward zero, on exact rationals. -/
def pyInt (q : ℚ) : ℤ := if 0 ≤ q then ⌊q⌋ else ⌈q⌉

/-- Python 3 `round(x)` (round half to even), on exact rationals. -/
def pyRound (q : ℚ) : ℤ :=
  let f := ⌊q⌋
  let r := q - f
  if r < 1/2 then f
  else if r > 1/2 then f + 1
  else if f % 2 = 0 then f else f + 1

/-- Binary64 (IEEE 754 double) round-to-nearest, ties-to-even, on exact
rationals: the value CPython stores for a float operation whose exact
result is `q`.  The significand is rounded to 53 bits at the binade
fixed by `Int.log 2 |q|` (ties broken to even by `pyRound`).  Overflow
and subnormal underflow (|q| outside the normal range) are not modeled:
the only values this file rounds are the analyzer's frame-count
quotients in [0, 1] and their products with 100, which lie well inside
the normal range for any session shorter than 2^44 frames. -/
def fround (q : ℚ) : ℚ :=
  if q = 0 then 0
  else
    let s : ℚ := if q < 0 then -1 else 1
    let e : ℤ := Int.log 2 |q| - 52
    s * (pyRound (|q| / 2 ^ e) * 2 ^ e)

/-- A 3-component position, as consumed by `calculate_angle`. -/
abbrev Vec3 := ℝ × ℝ × ℝ

/-- Dot product of the two difference vectors used in `calculate_angle`. -/
def dotProd (u v : Vec3) : ℝ := u.1 * v.1 + u.2.1 * v.2.1 + u.2.2 * v.2.2

/-- Componentwise difference `a - b` as written in `calculate_angle`. -/
def vsub (a b : Vec3) : Vec3 := (a.1 - b.1, a.2.1 - b.2.1, a.2.2 - b.2.2)

/-- Euclidean magnitude `np.linalg.norm`. -/
noncomputable def vmag (u : Vec3) : ℝ :=
  Real.sqrt (u.1 ^ 2 + u.2.1 ^ 2 + u.2.2 ^ 2)

/-- `np.clip(x, -1.0, 1.0)`. -/
noncomputable def clip1 (x : ℝ) : ℝ := max (-1) (min 1 x)

/-- Auxiliary for substring containment: does the first list occur as a
prefix of the second? -/
def prefixEqChars : List Char → List Char → Bool
  | [], _ => true
  | _ :: _, [] => false
  | a :: as, b :: bs => a == b && prefixEqChars as bs

/-- Auxiliary for substring containment: does the first list occur as a
contiguous sublist of the second? -/
def containsChars (needle : List Char) : List Char → Bool
  | [] => prefixEqChars needle []
  | b :: bs => prefixEqChars needle (b :: bs) || containsChars needle bs

/-- Python `needle in hay` on strings: substring containment. -/
def strIn (needle hay : String) : Bool := containsChars needle.data hay.data

namespace RepWise

/-- Embeds `process_pushup` (src/RepWise/exercise_logic/pushup.py, lines
29-62 of the returned-value logic): inputs are the two computed angles
`elbow_angle = calculate_angle(shoulder, elbow, wrist)` and
`back_angle = calculate_angle(shoulder, hip, knee)`, plus the threaded
`rep_counter`, `exercise_state`, `feedback_text`.  Output is the returned
`(rep_counter, exercise_state, feedback_text)` triple; drawing is omitted. -/
def process_pushup (elbow_angle back_angle : ℚ) (rep_counter : ℕ)
    (exercise_state feedback_text : String) : ℕ × String × String :=
  let feedback_text :=
    if back_angle < 160 then "Keep your back straight!" else "Good back form!"
  if elbow_angle < 90 ∧ back_angle > 160 then
    (rep_counter, "down", "Lower!")
  else if elbow_angle > 160 ∧ exercise_state = "down" then
    (rep_counter + 1, "up", "Rep Complete!")
  else if elbow_angle > 160 ∧ exercise_state = "up" then
    (rep_counter, exercise_state, "Ready to lower!")
  else
    (rep_counter, exercise_state,
      if strIn "back" feedback_text then feedback_text else "Push up or lower!")

/-- Embeds `process_air_squat` (src/RepWise/exercise_logic/free_squat.py,
lines 31-105): inputs are `knee_angle = calculate_angle(hip, knee, ankle)`
and `torso_angle = calculate_angle(shoulder, hip, knee)` plus the threaded
state.  Output is `(rep_counter, exercise_state, feedback_text,
speech_text)`; drawing is omitted. -/
def process_air_squat (knee_angle torso_angle : ℚ) (rep_counter : ℕ)
    (exercise_state feedback_text : String) : ℕ × String × String × String :=
  let is_upright_torso := torso_angle > 100
  let cf0 : String :=
    if ¬ is_upright_torso then "Too much forward lean! Chest up." else ""
  let sp0 : String := if ¬ is_upright_torso then "Lift chest." else ""
  let result : ℕ × String × String × String :=
    if exercise_state = "up" then
      if knee_angle > 165 then
        let cf1 := if cf0 = "" then "Ready! Squat down to begin rep." else cf0
        let sp1 :=
          if rep_counter = 0 ∧ sp0 = "" then "Squat down to start." else sp0
        if knee_angle < 165 - 5 ∧ is_upright_torso then
          (rep_counter, "down",
            "Hips back and down. Don\x27t let knees cave in.", "Squat.")
        else (rep_counter, exercise_state, cf1, sp1)
      else
        (rep_counter, exercise_state,
          "Stand up fully (Knee angle: " ++ toString (pyInt knee_angle) ++ ")",
          sp0)
    else if exercise_state = "down" then
      if knee_angle < 95 then
        (rep_counter, "recovering",
          (if cf0 = "" then "Good depth! Drive up through your heels." else cf0),
          (if cf0 = "" ∧ sp0 = "" then "Drive up." else sp0))
      else if knee_angle > 95 then
        (rep_counter, exercise_state,
          (if cf0 = "" then "Squat deeper to hit parallel." else cf0),
          (if cf0 = "" ∧ sp0 = "" then "Deeper." else sp0))
      else (rep_counter, exercise_state, cf0, sp0)
    else if exercise_state = "recovering" then
      if knee_angle > 165 ∧ is_upright_torso then
        (rep_counter + 1, "up", "Rep Complete! Reset and squat again.",
          "Rep complete.")
      else
        (rep_counter, exercise_state,
          (if cf0 = "" then "Keep pushing up to lockout." else cf0), sp0)
    else (rep_counter, exercise_state, cf0, sp0)
  (result.1, result.2.1,
    (if result.2.2.1 ≠ "" then result.2.2.1 else feedback_text),
    result.2.2.2)

/-- Embeds `calculate_angle` (src/RepWise/utils.py, lines 17-47).  There
is no zero-magnitude branch; instead an epsilon `1e-6` is added to the
product of the magnitudes before dividing. -/
noncomputable def calculate_angle (a b c : Vec3) : ℝ :=
  let ba := vsub a b
  let bc := vsub c b
  let dot_product := dotProd ba bc
  let mag_ba := vmag ba
  let mag_bc := vmag bc
  let cosine_angle := dot_product / (mag_ba * mag_bc + 1 / 1000000)
  Real.arccos (clip1 cosine_angle) * (180 / Real.pi)

/-- The MediaPipe `mp_pose.PoseLandmark` name-to-index enum (external
detector scheme; the dense 33-point body-mesh scheme of §4.1 of the
spec).  `mp_pose.PoseLandmark[name]` raises `KeyError` for names outside
this table, which the embedding renders as `none`. -/
def poseLandmarkIndex (part_name : String) : Option ℕ :=
  (([("NOSE", 0), ("LEFT_EYE_INNER", 1), ("LEFT_EYE", 2),
    ("LEFT_EYE_OUTER", 3), ("RIGHT_EYE_INNER", 4), ("RIGHT_EYE", 5),
    ("RIGHT_EYE_OUTER", 6), ("LEFT_EAR", 7), ("RIGHT_EAR", 8),
    ("MOUTH_LEFT", 9), ("MOUTH_RIGHT", 10), ("LEFT_SHOULDER", 11),
    ("RIGHT_SHOULDER", 12), ("LEFT_ELBOW", 13), ("RIGHT_ELBOW", 14),
    ("LEFT_WRIST", 15), ("RIGHT_WRIST", 16), ("LEFT_PINKY", 17),
    ("RIGHT_PINKY", 18), ("LEFT_INDEX", 19), ("RIGHT_INDEX", 20),
    ("LEFT_THUMB", 21), ("RIGHT_THUMB", 22), ("LEFT_HIP", 23),
    ("RIGHT_HIP", 24), ("LEFT_KNEE", 25), ("RIGHT_KNEE", 26),
    ("LEFT_ANKLE", 27), ("RIGHT_ANKLE", 28), ("LEFT_HEEL", 29),
    ("RIGHT_HEEL", 30), ("LEFT_FOOT_INDEX", 31),
    ("RIGHT_FOOT_INDEX", 32)] : List (String × ℕ)).lookup part_name)

/-- A MediaPipe landmark entry: `(x, y, z)` as read by
`get_landmark_3d`. -/
abbrev Landmark := ℚ × ℚ × ℚ

/-- Embeds `get_landmark_3d` (src/RepWise/utils.py, lines 58-63):
`landmarks[mp_pose.PoseLandmark[part_name].value]` followed by
`[lm.x, lm.y, lm.z]`.  An unrecognized name raises `KeyError` and an
index beyond the landmark list raises `IndexError`; fallible code is
rendered with `Except`. -/
def get_landmark_3d (landmarks : List Landmark) (part_name : String) :
    Except String Landmark :=
  match poseLandmarkIndex part_name with
  | none => .error "KeyError"
  | some index =>
    match landmarks.get? index with
    | none => .error "IndexError"
    | some lm => .ok lm

/-- Embeds `get_landmark_coords` (src/RepWise/utils.py, lines 50-55):
same lookup, then `(int(lm.x * w), int(lm.y * h))`; fallible for the
same two reasons. -/
def get_landmark_coords (landmarks : List Landmark) (part_name : String)
    (image_width image_height : ℚ) : Except String (ℤ × ℤ) :=
  match poseLandmarkIndex part_name with
  | none => .error "KeyError"
  | some index =>
    match landmarks.get? index with
    | none => .error "IndexError"
    | some lm =>
      .ok (pyInt (lm.1 * image_width), pyInt (lm.2.1 * image_height))

/-- Runs `process_pushup` over a finite sequence of frames, each frame
given by its `(elbow_angle, back_angle)` pair, threading
`(rep_counter, exercise_state, feedback_text)` as `run_live_mode` does. -/
def run_pushup : List (ℚ × ℚ) → ℕ × String × String → ℕ × String × String
  | [], s => s
  | (e, b) :: rest, s => run_pushup rest (process_pushup e b s.1 s.2.1 s.2.2)

/-- Runs `process_air_squat` over a finite sequence of
`(knee_angle, torso_angle)` frames, threading
`(rep_counter, exercise_state, feedback_text)` and discarding the
per-frame speech as the driver's rate limiter may. -/
def run_air_squat : List (ℚ × ℚ) → ℕ × String × String → ℕ × String × String
  | [], s => s
  | (k, t) :: rest, s =>
    let p := process_air_squat k t s.1 s.2.1 s.2.2
    run_air_squat rest (p.1, p.2.1, p.2.2.1)

/-- State of `WorkoutAnalyzer` (src/RepWise/main.py, lines 81-132):
the per-frame counters and the keyword-classified issue counters kept as
named attributes.  The `form_issues` string-keyed histogram mirrors the
three named counters plus two categories that no claim touches and is
omitted. -/
structure WorkoutAnalyzer where
  total_reps : ℕ
  good_reps : ℕ
  feedback_history : List String
  frame_count : ℕ
  good_form_frames : ℕ
  bad_form_frames : ℕ
  depth_issues : ℕ
  back_issues : ℕ
  elbow_issues : ℕ
deriving Repr, DecidableEq

/-- `WorkoutAnalyzer.reset` (src/RepWise/main.py, lines 88-100). -/
def WorkoutAnalyzer.reset : WorkoutAnalyzer :=
  ⟨0, 0, [], 0, 0, 0, 0, 0, 0⟩

/-- Embeds `WorkoutAnalyzer.log_frame` (src/RepWise/main.py, lines
102-125): increments `frame_count`, appends to the history, increments
exactly one of the good/bad frame counters, then classifies the
lower-cased feedback by substring matching. -/
def WorkoutAnalyzer.log_frame (a : WorkoutAnalyzer)
    (feedback_text : String) (has_good_form : Bool) : WorkoutAnalyzer :=
  let low := feedback_text.toLower
  { a with
    frame_count := a.frame_count + 1
    feedback_history := a.feedback_history ++ [feedback_text]
    good_form_frames :=
      if has_good_form then a.good_form_frames + 1 else a.good_form_frames
    bad_form_frames :=
      if has_good_form then a.bad_form_frames else a.bad_form_frames + 1
    back_issues :=
      if strIn "back" low ∧ strIn "straight" low then a.back_issues + 1
      else a.back_issues
    depth_issues :=
      if strIn "depth" low ∨ strIn "parallel" low then a.depth_issues + 1
      else a.depth_issues
    elbow_issues :=
      if strIn "elbow" low ∨ strIn "tuck" low then a.elbow_issues + 1
      else a.elbow_issues }

/-- `WorkoutAnalyzer.log_rep` (src/RepWise/main.py, lines 127-132). -/
def WorkoutAnalyzer.log_rep (a : WorkoutAnalyzer) (is_good_form : Bool) :
    WorkoutAnalyzer :=
  { a with
    total_reps := a.total_reps + 1
    good_reps := if is_good_form then a.good_reps + 1 else a.good_reps }

/-- The `form_score` computed by `WorkoutAnalyzer.get_analysis_summary`
(src/RepWise/main.py, lines 134-139): `None` when no frame was logged,
else `int((good_form_frames / frame_count) * 100)`, where `/` is
CPython's true division of two ints (the correctly rounded binary64 of
the exact quotient, modeled by `fround`), `* 100` is a binary64
multiplication (a second `fround`), and `int` truncates toward zero. -/
def WorkoutAnalyzer.form_score (a : WorkoutAnalyzer) : Option ℤ :=
  if a.frame_count = 0 then none
  else some (pyInt (fround (fround
    ((a.good_form_frames : ℚ) / (a.frame_count : ℚ)) * 100)))

/-- Folds `log_frame` over a list of `(feedback_text, has_good_form)`
frames, as the session driver does once per processed frame. -/
def WorkoutAnalyzer.log_frames (a : WorkoutAnalyzer) :
    List (String × Bool) → WorkoutAnalyzer
  | [] => a
  | (fb, g) :: rest => (a.log_frame fb g).log_frames rest

/-- Embeds the per-frame visibility gate and dispatch of `run_live_mode`
(src/RepWise/main.py, lines 266-331).  `proc` stands for the selected
exercise processor applied to the current frame's landmarks (so that the
theorem can quantify over every module and every metric value);
`vis_nose`, `vis_l_ankle`, `vis_r_ankle` are the anchor visibilities.
When the quorum fails the module is not invoked, `exercise_state` is
reset to `"up"` and the frame feedback is the reacquire-pose default.
Logging, rendering and speech are omitted. -/
def run_live_mode_step (proc : ℕ → String → String → ℕ × String × String)
    (vis_nose vis_l_ankle vis_r_ankle : ℚ) (rep_counter : ℕ)
    (exercise_state feedback_text : String) : ℕ × String × String :=
  if vis_nose > 1/2 ∧ vis_l_ankle > 1/2 ∧ vis_r_ankle > 1/2 then
    proc rep_counter exercise_state feedback_text
  else
    (rep_counter, "up", "CENTER AND SHOW ENTIRE BODY")

end RepWise

namespace RepWiseYolo

/-- Embeds `process_barbell_squat` (src/RepWiseYolo/exercise_logic/
barbell_squat.py, lines 24-69): inputs are `knee_angle =
calculate_angle(hip, knee, ankle)` and `back_angle =
calculate_angle(shoulder, hip, knee)` plus the threaded state.  Output is
`(rep_counter, exercise_state, feedback_text)`; drawing is omitted. -/
def process_barbell_squat (knee_angle back_angle : ℚ) (rep_counter : ℕ)
    (exercise_state feedback_text : String) : ℕ × String × String :=
  let feedback_text :=
    if back_angle < 80 then "Chest up! Keep your back straight."
    else "Good back form!"
  if knee_angle < 90 ∧ back_angle > 80 then
    if exercise_state = "up" then
      (rep_counter, "down", "Good depth! Drive up.")
    else (rep_counter, exercise_state, feedback_text)
  else if knee_angle > 160 ∧ exercise_state = "down" then
    (rep_counter + 1, "up", "Rep Complete!")
  else if exercise_state = "up" ∧ knee_angle > 160 then
    (rep_counter, exercise_state,
      if strIn "back" feedback_text then feedback_text
      else "Lower into your squat.")
  else if exercise_state = "up" ∧ knee_angle < 160 then
    (rep_counter, exercise_state,
      if strIn "back" feedback_text then feedback_text
      else "Lower... hit parallel!")
  else (rep_counter, exercise_state, feedback_text)

/-- Embeds `process_shoulder_press` (src/RepWiseYolo/exercise_logic/
shoulder_press.py, lines 39-152): inputs are the two computed elbow
angles, the y coordinates of left/right shoulder and wrist (used for
`arm_raised`; the Python guards `if left_shoulder_3d and left_wrist_3d`
are always true because `get_landmark_3d` always returns a non-empty
list), plus the threaded state.  Output is `(rep_counter, exercise_state,
feedback_text, speech_text)`; drawing is omitted. -/
def process_shoulder_press (left_elbow_angle right_elbow_angle : ℚ)
    (lsy lwy rsy rwy : ℚ) (rep_counter : ℕ)
    (exercise_state feedback_text : String) : ℕ × String × String × String :=
  let elbow_angle := (left_elbow_angle + right_elbow_angle) / 2
  let arm_raised := lwy < lsy ∨ rwy < rsy
  let is_extended := elbow_angle > 140 ∧ arm_raised
  let is_lowered := elbow_angle < 130
  let cfsp0 : String × String :=
    if elbow_angle < 80 ∧ ¬ is_lowered then
      ("Extend your arms more!", "Extend arms.")
    else if is_extended ∧ ¬ arm_raised then
      ("Press your arms higher overhead!", "Press higher.")
    else ("", "")
  let cf0 := cfsp0.1
  let sp0 := cfsp0.2
  let result : ℕ × String × String × String :=
    if exercise_state = "up" then
      if is_extended then
        let cf1 := if cf0 = "" then "Ready! Lower your arms to begin rep." else cf0
        let sp1 := if rep_counter = 0 ∧ sp0 = "" then "Lower to start." else sp0
        if elbow_angle < 145 then
          (rep_counter, "down", "Lower your arms to shoulder level.", "Lower.")
        else (rep_counter, exercise_state, cf1, sp1)
      else
        if is_lowered then
          (rep_counter, "down", "Continue lowering, then press up.", "Lower.")
        else
          (rep_counter, exercise_state,
            "Press arms up overhead (Elbow: " ++
              toString (pyInt elbow_angle) ++ ")", sp0)
    else if exercise_state = "down" then
      if is_lowered then
        (rep_counter, "recovering",
          (if cf0 = "" then "Good! Now press up overhead." else cf0),
          (if cf0 = "" ∧ sp0 = "" then "Press up." else sp0))
      else
        (rep_counter, exercise_state,
          (if cf0 = "" then "Lower your arms more to shoulder level." else cf0),
          (if cf0 = "" ∧ sp0 = "" then "Lower." else sp0))
    else if exercise_state = "recovering" then
      if is_extended then
        (rep_counter + 1, "up", "Rep Complete! Lower for the next one.",
          "Rep complete.")
      else if is_lowered then
        (rep_counter, exercise_state,
          (if cf0 = "" then "Press up! Full extension overhead!" else cf0), sp0)
      else
        (rep_counter, exercise_state,
          (if cf0 = "" then "Keep pressing up! Lock out overhead!" else cf0),
          sp0)
    else (rep_counter, exercise_state, cf0, sp0)
  (result.1, result.2.1,
    (if result.2.2.1 ≠ "" then result.2.2.1 else feedback_text),
    result.2.2.2)

/-- Embeds the timer state machine of `process_plank`
(src/RepWiseYolo/exercise_logic/plank.py, lines 74-134).  `current_time`
stands for the frame's `time.time()` value; `is_form_detectable` and
`is_good_form` abstract the confidence and hip/elbow angle checks of
lines 21-72, over which the relevant claims quantify.  Returns
`(new_total_held_duration_base, new_plank_start_time)`; `PLANK_STOPPED`
is `0`. -/
def process_plank_timer (current_time total_held_duration_base
    plank_start_time : ℚ) (is_form_detectable is_good_form : Bool) :
    ℚ × ℚ :=
  let time_since_segment_start :=
    if plank_start_time > 0 then current_time - plank_start_time else 0
  let duration_to_report := total_held_duration_base + time_since_segment_start
  if plank_start_time = 0 then
    if is_form_detectable ∧ is_good_form then
      (total_held_duration_base, current_time)
    else
      (total_held_duration_base, 0)
  else
    if is_form_detectable ∧ is_good_form then
      (total_held_duration_base, plank_start_time)
    else
      (duration_to_report, 0)

/-- The duration reported by `process_plank` in its feedback
(`duration_to_report`, plank.py line 82): accumulated base plus the
elapsed time of the running segment (zero if paused). -/
def plank_duration_to_report (current_time total_held_duration_base
    plank_start_time : ℚ) : ℚ :=
  total_held_duration_base +
    (if plank_start_time > 0 then current_time - plank_start_time else 0)

/-- Embeds `calculate_angle` (src/RepWiseYolo/utils.py, lines 31-59).
This variant returns the sentinel `0.0` when either vector magnitude is
zero, and otherwise divides by the exact product of magnitudes. -/
noncomputable def calculate_angle (a b c : Vec3) : ℝ :=
  let ba := vsub a b
  let bc := vsub c b
  let dot_product := dotProd ba bc
  let mag_ba := vmag ba
  let mag_bc := vmag bc
  if mag_ba = 0 ∨ mag_bc = 0 then 0
  else
    Real.arccos (clip1 (dot_product / (mag_ba * mag_bc))) * (180 / Real.pi)

/-- Embeds `YOLO_KEYPOINT_MAP` (src/RepWiseYolo/utils.py, lines 11-17):
semantic joint name to COCO keypoint index. -/
def YOLO_KEYPOINT_MAP (part_name : String) : Option ℕ :=
  (([("NOSE", 0), ("LEFT_SHOULDER", 5), ("RIGHT_SHOULDER", 6),
    ("LEFT_ELBOW", 7), ("RIGHT_ELBOW", 8), ("LEFT_WRIST", 9),
    ("RIGHT_WRIST", 10), ("LEFT_HIP", 11), ("RIGHT_HIP", 12),
    ("LEFT_KNEE", 13), ("RIGHT_KNEE", 14), ("LEFT_ANKLE", 15),
    ("RIGHT_ANKLE", 16), ("LEFT_EYE", 1), ("RIGHT_EYE", 2),
    ("LEFT_EAR", 3), ("RIGHT_EAR", 4)] : List (String × ℕ)).lookup
    part_name)

/-- A YOLO keypoint entry `[x, y, confidence]`. -/
abbrev Keypoint := ℚ × ℚ × ℚ

/-- Embeds `get_landmark_3d` (src/RepWiseYolo/utils.py, lines 84-100):
returns the sentinel `[0, 0, 0]` for an unrecognized part name or an
index beyond the keypoints array, else `[x, y, 0]`. -/
def get_landmark_3d (landmarks : List Keypoint) (part_name : String) :
    ℚ × ℚ × ℚ :=
  match YOLO_KEYPOINT_MAP part_name with
  | none => (0, 0, 0)
  | some index =>
    match landmarks.get? index with
    | none => (0, 0, 0)
    | some lm => (lm.1, lm.2.1, 0)

/-- Embeds `get_landmark_coords` (src/RepWiseYolo/utils.py, lines
62-81): returns the sentinel `(0, 0)` for an unrecognized part name or
an out-of-range index, else `(int(round(x)), int(round(y)))`. -/
def get_landmark_coords (landmarks : List Keypoint) (part_name : String)
    (image_width image_height : ℚ) : ℤ × ℤ :=
  match YOLO_KEYPOINT_MAP part_name with
  | none => (0, 0)
  | some index =>
    match landmarks.get? index with
    | none => (0, 0)
    | some lm => (pyRound lm.1, pyRound lm.2.1)

/-- Embeds the full-body visibility gate and dispatch of `run_live_mode`
(src/RepWiseYolo/main.py, lines 282-397, rep-based branch): the anchors
are nose and both ankles.  When the quorum fails the selected module
`proc` is not invoked, `exercise_state` is reset to `"up"` and the frame
feedback is the reacquire-pose default. -/
def run_live_mode_step_fullbody
    (proc : ℕ → String → String → ℕ × String × String)
    (vis_nose vis_l_ankle vis_r_ankle : ℚ) (rep_counter : ℕ)
    (exercise_state feedback_text : String) : ℕ × String × String :=
  if vis_nose > 1/2 ∧ vis_l_ankle > 1/2 ∧ vis_r_ankle > 1/2 then
    proc rep_counter exercise_state feedback_text
  else
    (rep_counter, "up", "CENTER AND SHOW ENTIRE BODY")

/-- Embeds the upper-body visibility gate of the same loop (main.py
lines 289-299, used for the shoulder press): anchors are nose, both
shoulders and both wrists, and the reacquire message is
`"CENTER TORSO AND ARMS"`. -/
def run_live_mode_step_upperbody
    (proc : ℕ → String → String → ℕ × String × String)
    (vis_nose vis_l_shoulder vis_r_shoulder vis_l_wrist vis_r_wrist : ℚ)
    (rep_counter : ℕ) (exercise_state feedback_text : String) :
    ℕ × String × String :=
  if vis_nose > 1/2 ∧ vis_l_shoulder > 1/2 ∧ vis_r_shoulder > 1/2 ∧
      vis_l_wrist > 1/2 ∧ vis_r_wrist > 1/2 then
    proc rep_counter exercise_state feedback_text
  else
    (rep_counter, "up", "CENTER TORSO AND ARMS")

/-- Embeds one iteration of the time-based (plank) branch of
`run_live_mode` (src/RepWiseYolo/main.py, lines 314-340 and 381-389)
composed with `process_plank_timer`.  State is
`(rep_or_duration, plank_start_time)`; inputs are the frame time, the
driver-level visibility quorum, and the module-level detectability and
form checks.  When visible, the driver stores the module's new base,
then overwrites `rep_or_duration` with `current_time_for_ui`
(base plus live segment time) — exactly as lines 329-340 do.  When not
visible it folds the running segment into the accumulator and pauses. -/
def run_live_mode_plank_step (current_time : ℚ) (visible : Bool)
    (is_form_detectable is_good_form : Bool)
    (rep_or_duration plank_start_time : ℚ) : ℚ × ℚ :=
  if visible then
    let p := process_plank_timer current_time rep_or_duration
      plank_start_time is_form_detectable is_good_form
    let new_rep := p.1
    let current_time_for_ui :=
      if p.2 ≠ 0 then new_rep + (current_time - p.2) else new_rep
    (current_time_for_ui, p.2)
  else
    let new_rep :=
      if plank_start_time ≠ 0 then
        rep_or_duration + (current_time - plank_start_time)
      else rep_or_duration
    (new_rep, 0)

/-- Folds `run_live_mode_plank_step` over a list of frames, each frame
given as `(time, visible, is_form_detectable, is_good_form)`. -/
def run_live_mode_plank_run :
    List (ℚ × Bool × Bool × Bool) → ℚ × ℚ → ℚ × ℚ
  | [], s => s
  | (t, v, d, g) :: rest, s =>
    run_live_mode_plank_run rest (run_live_mode_plank_step t v d g s.1 s.2)

/-- Embeds `get_exercise_processor` (src/RepWiseYolo/main.py, lines
596-624).  The 24 processor functions are identified by their source
names; `processors.get(exercise_name, process_pushup)` falls back to the
push-up processor for any unregistered name. -/
def exercise_processor_table : List (String × String) :=
  [("pushup", "process_pushup"), ("barbell_squat", "process_barbell_squat"),
   ("air_squat", "process_air_squat"), ("deadlift", "process_deadlift"),
   ("chest_press", "process_chest_press"),
   ("shoulder_press", "process_shoulder_press"),
   ("pull_up", "process_pull_up"),
   ("donkey_calf_raise", "process_donkey_calf_raise"),
   ("forward_lunge", "process_lunge"), ("jump_squat", "process_jump_squat"),
   ("bulgarian_split_squat", "process_bulgarian_split_squat"),
   ("crunches", "process_crunches"),
   ("laying_leg_raises", "process_laying_leg_raises"),
   ("russian_twist", "process_russian_twist"),
   ("side_plank_up_down", "process_side_plank_up_down"),
   ("elbow_side_plank", "process_elbow_side_plank"),
   ("pike_press", "process_pike_press"),
   ("overhead_squat", "process_overhead_squat"),
   ("chin_ups", "process_chin_ups"), ("glute_bridge", "process_glute_bridge"),
   ("kickbacks", "process_kickbacks"),
   ("single_leg_rdl", "process_single_leg_rdl"),
   ("good_mornings", "process_good_mornings"), ("plank", "process_plank")]

/-- The lookup-with-default of `get_exercise_processor`. -/
def get_exercise_processor (exercise_name : String) : String :=
  (exercise_processor_table.lookup exercise_name).getD "process_pushup"

/-- Runs `process_barbell_squat` over a finite sequence of
`(knee_angle, back_angle)` frames, threading
`(rep_counter, exercise_state, feedback_text)`. -/
def run_barbell_squat :
    List (ℚ × ℚ) → ℕ × String × String → ℕ × String × String
  | [], s => s
  | (k, b) :: rest, s =>
    run_barbell_squat rest (process_barbell_squat k b s.1 s.2.1 s.2.2)

/-- One shoulder-press frame: the two elbow angles and the y coordinates
of left shoulder, left wrist, right shoulder, right wrist. -/
structure PressFrame where
  left_elbow_angle : ℚ
  right_elbow_angle : ℚ
  lsy : ℚ
  lwy : ℚ
  rsy : ℚ
  rwy : ℚ
deriving Repr, DecidableEq

/-- The averaged elbow metric of a shoulder-press frame. -/
def PressFrame.elbow (f : PressFrame) : ℚ :=
  (f.left_elbow_angle + f.right_elbow_angle) / 2

/-- The `arm_raised` flag of a shoulder-press frame. -/
def PressFrame.raised (f : PressFrame) : Prop :=
  f.lwy < f.lsy ∨ f.rwy < f.rsy

instance (f : PressFrame) : Decidable f.raised := by
  unfold PressFrame.raised; infer_instance

/-- Runs `process_shoulder_press` over a finite sequence of frames,
threading `(rep_counter, exercise_state, feedback_text)` and discarding
the per-frame speech. -/
def run_shoulder_press :
    List PressFrame → ℕ × String × String → ℕ × String × String
  | [], s => s
  | f :: rest, s =>
    let p := process_shoulder_press f.left_elbow_angle f.right_elbow_angle
      f.lsy f.lwy f.rsy f.rwy s.1 s.2.1 s.2.2
    run_shoulder_press rest (p.1, p.2.1, p.2.2.1)

/-- State of `WorkoutAnalyzer` (src/RepWiseYolo/main.py, lines 60-117):
as in the RepWise variant, plus the `total_duration_held` accumulator
for time-based exercises.  The `form_issues` string-keyed histogram is
omitted (no claim touches it). -/
structure WorkoutAnalyzer where
  total_reps : ℕ
  good_reps : ℕ
  feedback_history : List String
  frame_count : ℕ
  good_form_frames : ℕ
  bad_form_frames : ℕ
  depth_issues : ℕ
  back_issues : ℕ
  elbow_issues : ℕ
  total_duration_held : ℚ
deriving Repr, DecidableEq

/-- `WorkoutAnalyzer.reset` (src/RepWiseYolo/main.py, lines 67-79). -/
def WorkoutAnalyzer.reset : WorkoutAnalyzer :=
  ⟨0, 0, [], 0, 0, 0, 0, 0, 0, 0⟩

/-- Embeds `WorkoutAnalyzer.log_frame` (src/RepWiseYolo/main.py, lines
81-105); this variant also matches `"flat"` for back issues. -/
def WorkoutAnalyzer.log_frame (a : WorkoutAnalyzer)
    (feedback_text : String) (has_good_form : Bool) : WorkoutAnalyzer :=
  let low := feedback_text.toLower
  { a with
    frame_count := a.frame_count + 1
    feedback_history := a.feedback_history ++ [feedback_text]
    good_form_frames :=
      if has_good_form then a.good_form_frames + 1 else a.good_form_frames
    bad_form_frames :=
      if has_good_form then a.bad_form_frames else a.bad_form_frames + 1
    back_issues :=
      if strIn "back" low ∧ (strIn "straight" low ∨ strIn "flat" low) then
        a.back_issues + 1
      else a.back_issues
    depth_issues :=
      if strIn "depth" low ∨ strIn "parallel" low then a.depth_issues + 1
      else a.depth_issues
    elbow_issues :=
      if strIn "elbow" low ∨ strIn "tuck" low then a.elbow_issues + 1
      else a.elbow_issues }

/-- `WorkoutAnalyzer.log_rep` (src/RepWiseYolo/main.py, lines 107-112). -/
def WorkoutAnalyzer.log_rep (a : WorkoutAnalyzer) (is_good_form : Bool) :
    WorkoutAnalyzer :=
  { a with
    total_reps := a.total_reps + 1
    good_reps := if is_good_form then a.good_reps + 1 else a.good_reps }

/-- `WorkoutAnalyzer.log_duration` (src/RepWiseYolo/main.py, lines
114-117): keeps the maximum total observed. -/
def WorkoutAnalyzer.log_duration (a : WorkoutAnalyzer)
    (duration_in_seconds : ℚ) : WorkoutAnalyzer :=
  { a with
    total_duration_held := max a.total_duration_held duration_in_seconds }

/-- The `form_score` computed by `WorkoutAnalyzer.get_analysis_summary`
(src/RepWiseYolo/main.py, lines 119-124): `None` when no frame was
logged, else `int((good_form_frames / frame_count) * 100)` with the
same binary64 semantics as the RepWise variant: a correctly rounded
division, a correctly rounded multiplication by 100, then truncation
toward zero. -/
def WorkoutAnalyzer.form_score (a : WorkoutAnalyzer) : Option ℤ :=
  if a.frame_count = 0 then none
  else some (pyInt (fround (fround
    ((a.good_form_frames : ℚ) / (a.frame_count : ℚ)) * 100)))

/-- Folds `log_frame` over a list of `(feedback_text, has_good_form)`
frames. -/
def WorkoutAnalyzer.log_frames (a : WorkoutAnalyzer) :
    List (String × Bool) → WorkoutAnalyzer
  | [] => a
  | (fb, g) :: rest => (a.log_frame fb g).log_frames rest

end RepWiseYolo

namespace RepWise

theorem pushup_step_rep (e b : ℚ) (r : ℕ) (st fb : String) :
    (process_pushup e b r st fb).1 =
      if 160 < e ∧ st = "down" then r + 1 else r := by
  simp only [process_pushup]
  split_ifs <;> simp_all <;> linarith

theorem pushup_step_state (e b : ℚ) (r : ℕ) (st fb : String) :
    (process_pushup e b r st fb).2.1 =
      if e < 90 ∧ 160 < b then "down"
      else if 160 < e ∧ st = "down" then "up"
      else st := by
  simp only [process_pushup]
  split_ifs <;> simp_all

end RepWise

namespace RepWiseYolo

theorem barbell_step_rep (k b : ℚ) (r : ℕ) (st fb : String) :
    (process_barbell_squat k b r st fb).1 =
      if 160 < k ∧ st = "down" then r + 1 else r := by
  simp only [process_barbell_squat]
  split_ifs <;> simp_all <;> linarith

theorem barbell_step_state (k b : ℚ) (r : ℕ) (st fb : String) :
    (process_barbell_squat k b r st fb).2.1 =
      if k < 90 ∧ 80 < b ∧ st = "up" then "down"
      else if 160 < k ∧ st = "down" then "up"
      else st := by
  simp only [process_barbell_squat]
  split_ifs <;> simp_all <;> linarith

end RepWiseYolo

namespace RepWise

theorem air_step_rep (k t : ℚ) (r : ℕ) (st fb : String) :
    (process_air_squat k t r st fb).1 =
      if st = "recovering" ∧ 165 < k ∧ 100 < t then r + 1 else r := by
  simp only [process_air_squat]
  split_ifs <;> simp_all <;> linarith

theorem air_step_state (k t : ℚ) (r : ℕ) (st fb : String) :
    (process_air_squat k t r st fb).2.1 =
      if st = "down" ∧ k < 95 then "recovering"
      else if st = "recovering" ∧ 165 < k ∧ 100 < t then "up"
      else st := by
  simp only [process_air_squat]
  split_ifs <;> simp_all <;> linarith

end RepWise

namespace RepWiseYolo

set_option maxHeartbeats 1000000 in
theorem press_step_rep (le re lsy lwy rsy rwy : ℚ) (r : ℕ) (st fb : String) :
    (process_shoulder_press le re lsy lwy rsy rwy r st fb).1 =
      if st = "recovering" ∧ 140 < (le + re) / 2 ∧ (lwy < lsy ∨ rwy < rsy)
      then r + 1 else r := by
  simp only [process_shoulder_press]
  split_ifs <;> simp_all <;> linarith

set_option maxHeartbeats 1000000 in
theorem press_step_recovering (le re lsy lwy rsy rwy : ℚ) (r : ℕ)
    (fb : String)
    (hne : ¬ (140 < (le + re) / 2 ∧ (lwy < lsy ∨ rwy < rsy))) :
    (process_shoulder_press le re lsy lwy rsy rwy r "recovering" fb).1 = r ∧
    (process_shoulder_press le re lsy lwy rsy rwy r "recovering" fb).2.1 =
      "recovering" := by
  simp only [process_shoulder_press]
  split_ifs <;> simp_all <;> linarith

end RepWiseYolo

namespace RepWise

theorem run_pushup_mono (frames : List (ℚ × ℚ)) :
    ∀ s : ℕ × String × String, s.1 ≤ (run_pushup frames s).1 := by
  induction frames with
  | nil => intro s; simp [run_pushup]
  | cons f rest ih =>
    intro s
    obtain ⟨e, b⟩ := f
    calc s.1 ≤ (process_pushup e b s.1 s.2.1 s.2.2).1 := by
          rw [pushup_step_rep]; split_ifs <;> omega
      _ ≤ (run_pushup rest (process_pushup e b s.1 s.2.1 s.2.2)).1 := ih _
      _ = (run_pushup ((e, b) :: rest) s).1 := by rw [run_pushup]

theorem run_pushup_keep (frames : List (ℚ × ℚ))
    (h : ∀ f ∈ frames, ¬ f.1 < 90) :
    ∀ s : ℕ × String × String, s.2.1 ≠ "down" →
      (run_pushup frames s).1 = s.1 ∧
      (run_pushup frames s).2.1 = s.2.1 := by
  induction frames with
  | nil => intro s _; simp [run_pushup]
  | cons f rest ih =>
    intro s hs
    obtain ⟨e, b⟩ := f
    have he : ¬ e < 90 := h (e, b) (List.mem_cons_self _ _)
    have hstep1 : (process_pushup e b s.1 s.2.1 s.2.2).1 = s.1 := by
      rw [pushup_step_rep]; rw [if_neg]; rintro ⟨-, hd⟩; exact hs hd
    have hstep2 : (process_pushup e b s.1 s.2.1 s.2.2).2.1 = s.2.1 := by
      rw [pushup_step_state, if_neg, if_neg]
      · rintro ⟨-, hd⟩; exact hs hd
      · rintro ⟨h90, -⟩; exact he h90
    have hs2 : (process_pushup e b s.1 s.2.1 s.2.2).2.1 ≠ "down" := by
      rw [hstep2]; exact hs
    have := ih (fun f hf => h f (List.mem_cons_of_mem _ hf))
      (process_pushup e b s.1 s.2.1 s.2.2) hs2
    rw [run_pushup]
    exact ⟨this.1.trans hstep1, this.2.trans hstep2⟩

end RepWise

namespace RepWise

theorem run_pushup_from_down (frames : List (ℚ × ℚ))
    (h : ∀ f ∈ frames, ¬ f.1 < 90) :
    ∀ s : ℕ × String × String, s.2.1 = "down" →
      (run_pushup frames s).1 ≤ s.1 + 1 := by
  induction frames with
  | nil => intro s _; simp [run_pushup]
  | cons f rest ih =>
    intro s hs
    obtain ⟨e, b⟩ := f
    have he : ¬ e < 90 := h (e, b) (List.mem_cons_self _ _)
    have hrest : ∀ f ∈ rest, ¬ f.1 < 90 :=
      fun f hf => h f (List.mem_cons_of_mem _ hf)
    rw [run_pushup]
    by_cases h160 : 160 < e
    · have hstep1 : (process_pushup e b s.1 s.2.1 s.2.2).1 = s.1 + 1 := by
        rw [pushup_step_rep, if_pos ⟨h160, hs⟩]
      have hstep2 : (process_pushup e b s.1 s.2.1 s.2.2).2.1 = "up" := by
        rw [pushup_step_state, if_neg, if_pos ⟨h160, hs⟩]
        rintro ⟨h90, -⟩; exact he h90
      have hk := run_pushup_keep rest hrest
        (process_pushup e b s.1 s.2.1 s.2.2) (by rw [hstep2]; simp)
      rw [hk.1, hstep1]
    · have hstep1 : (process_pushup e b s.1 s.2.1 s.2.2).1 = s.1 := by
        rw [pushup_step_rep, if_neg]; rintro ⟨h', -⟩; exact h160 h'
      have hstep2 : (process_pushup e b s.1 s.2.1 s.2.2).2.1 = "down" := by
        rw [pushup_step_state, if_neg, if_neg]
        · exact hs
        · rintro ⟨h', -⟩; exact h160 h'
        · rintro ⟨h90, -⟩; exact he h90
      have := ih hrest (process_pushup e b s.1 s.2.1 s.2.2) hstep2
      omega

theorem run_pushup_no_lockout (frames : List (ℚ × ℚ))
    (h : ∀ f ∈ frames, ¬ 160 < f.1) :
    ∀ s : ℕ × String × String, (run_pushup frames s).1 = s.1 := by
  induction frames with
  | nil => intro s; simp [run_pushup]
  | cons f rest ih =>
    intro s
    obtain ⟨e, b⟩ := f
    have he : ¬ 160 < e := h (e, b) (List.mem_cons_self _ _)
    have hstep1 : (process_pushup e b s.1 s.2.1 s.2.2).1 = s.1 := by
      rw [pushup_step_rep, if_neg]; rintro ⟨h', -⟩; exact he h'
    rw [run_pushup,
      ih (fun f hf => h f (List.mem_cons_of_mem _ hf)) _, hstep1]

theorem run_pushup_band (t : ℚ) (frames : List (ℚ × ℚ))
    (s : ℕ × String × String)
    (h : ∀ f ∈ frames, t - 1 ≤ f.1 ∧ f.1 ≤ t + 1) :
    (run_pushup frames s).1 ≤ s.1 + 1 := by
  by_cases hex : ∃ f ∈ frames, 160 < f.1
  · obtain ⟨f₀, hf₀, h160⟩ := hex
    have ht : 159 < t := by have := (h f₀ hf₀).2; linarith
    have h90 : ∀ f ∈ frames, ¬ f.1 < 90 := by
      intro f hf h'
      have := (h f hf).1
      linarith
    by_cases hst : s.2.1 = "down"
    · exact run_pushup_from_down frames h90 s hst
    · have := run_pushup_keep frames h90 s hst
      omega
  · push_neg at hex
    have := run_pushup_no_lockout frames (fun f hf h' => by
      have := hex f hf; linarith) s
    omega

end RepWise

namespace RepWiseYolo

theorem run_barbell_mono (frames : List (ℚ × ℚ)) :
    ∀ s : ℕ × String × String, s.1 ≤ (run_barbell_squat frames s).1 := by
  induction frames with
  | nil => intro s; simp [run_barbell_squat]
  | cons f rest ih =>
    intro s
    obtain ⟨k, b⟩ := f
    calc s.1 ≤ (process_barbell_squat k b s.1 s.2.1 s.2.2).1 := by
          rw [barbell_step_rep]; split_ifs <;> omega
      _ ≤ (run_barbell_squat rest (process_barbell_squat k b s.1 s.2.1 s.2.2)).1 := ih _
      _ = (run_barbell_squat ((k, b) :: rest) s).1 := by rw [run_barbell_squat]

theorem run_barbell_keep (frames : List (ℚ × ℚ))
    (h : ∀ f ∈ frames, ¬ f.1 < 90) :
    ∀ s : ℕ × String × String, s.2.1 ≠ "down" →
      (run_barbell_squat frames s).1 = s.1 ∧
      (run_barbell_squat frames s).2.1 = s.2.1 := by
  induction frames with
  | nil => intro s _; simp [run_barbell_squat]
  | cons f rest ih =>
    intro s hs
    obtain ⟨k, b⟩ := f
    have hk90 : ¬ k < 90 := h (k, b) (List.mem_cons_self _ _)
    have hstep1 : (process_barbell_squat k b s.1 s.2.1 s.2.2).1 = s.1 := by
      rw [barbell_step_rep, if_neg]; rintro ⟨-, hd⟩; exact hs hd
    have hstep2 : (process_barbell_squat k b s.1 s.2.1 s.2.2).2.1 = s.2.1 := by
      rw [barbell_step_state, if_neg, if_neg]
      · rintro ⟨-, hd⟩; exact hs hd
      · rintro ⟨h90, -⟩; exact hk90 h90
    have hs2 : (process_barbell_squat k b s.1 s.2.1 s.2.2).2.1 ≠ "down" := by
      rw [hstep2]; exact hs
    have := ih (fun f hf => h f (List.mem_cons_of_mem _ hf))
      (process_barbell_squat k b s.1 s.2.1 s.2.2) hs2
    rw [run_barbell_squat]
    exact ⟨this.1.trans hstep1, this.2.trans hstep2⟩

theorem run_barbell_from_down (frames : List (ℚ × ℚ))
    (h : ∀ f ∈ frames, ¬ f.1 < 90) :
    ∀ s : ℕ × String × String, s.2.1 = "down" →
      (run_barbell_squat frames s).1 ≤ s.1 + 1 := by
  induction frames with
  | nil => intro s _; simp [run_barbell_squat]
  | cons f rest ih =>
    intro s hs
    obtain ⟨k, b⟩ := f
    have hrest : ∀ f ∈ rest, ¬ f.1 < 90 :=
      fun f hf => h f (List.mem_cons_of_mem _ hf)
    have hne : s.2.1 ≠ "up" := by rw [hs]; simp
    rw [run_barbell_squat]
    by_cases h160 : 160 < k
    · have hstep1 : (process_barbell_squat k b s.1 s.2.1 s.2.2).1 = s.1 + 1 := by
        rw [barbell_step_rep, if_pos ⟨h160, hs⟩]
      have hstep2 : (process_barbell_squat k b s.1 s.2.1 s.2.2).2.1 = "up" := by
        rw [barbell_step_state, if_neg, if_pos ⟨h160, hs⟩]
        rintro ⟨-, -, hu⟩; exact hne hu
      have hk := run_barbell_keep rest hrest
        (process_barbell_squat k b s.1 s.2.1 s.2.2) (by rw [hstep2]; simp)
      rw [hk.1, hstep1]
    · have hstep1 : (process_barbell_squat k b s.1 s.2.1 s.2.2).1 = s.1 := by
        rw [barbell_step_rep, if_neg]; rintro ⟨h', -⟩; exact h160 h'
      have hstep2 : (process_barbell_squat k b s.1 s.2.1 s.2.2).2.1 = "down" := by
        rw [barbell_step_state, if_neg, if_neg]
        · exact hs
        · rintro ⟨h', -⟩; exact h160 h'
        · rintro ⟨-, -, hu⟩; exact hne hu
      have := ih hrest (process_barbell_squat k b s.1 s.2.1 s.2.2) hstep2
      omega

theorem run_barbell_no_lockout (frames : List (ℚ × ℚ))
    (h : ∀ f ∈ frames, ¬ 160 < f.1) :
    ∀ s : ℕ × String × String, (run_barbell_squat frames s).1 = s.1 := by
  induction frames with
  | nil => intro s; simp [run_barbell_squat]
  | cons f rest ih =>
    intro s
    obtain ⟨k, b⟩ := f
    have hk : ¬ 160 < k := h (k, b) (List.mem_cons_self _ _)
    have hstep1 : (process_barbell_squat k b s.1 s.2.1 s.2.2).1 = s.1 := by
      rw [barbell_step_rep, if_neg]; rintro ⟨h', -⟩; exact hk h'
    rw [run_barbell_squat,
      ih (fun f hf => h f (List.mem_cons_of_mem _ hf)) _, hstep1]

theorem run_barbell_band (t : ℚ) (frames : List (ℚ × ℚ))
    (s : ℕ × String × String)
    (h : ∀ f ∈ frames, t - 1 ≤ f.1 ∧ f.1 ≤ t + 1) :
    (run_barbell_squat frames s).1 ≤ s.1 + 1 := by
  by_cases hex : ∃ f ∈ frames, 160 < f.1
  · obtain ⟨f₀, hf₀, h160⟩ := hex
    have ht : 159 < t := by have := (h f₀ hf₀).2; linarith
    have h90 : ∀ f ∈ frames, ¬ f.1 < 90 := by
      intro f hf h'
      have := (h f hf).1
      linarith
    by_cases hst : s.2.1 = "down"
    · exact run_barbell_from_down frames h90 s hst
    · have := run_barbell_keep frames h90 s hst
      omega
  · push_neg at hex
    have := run_barbell_no_lockout frames (fun f hf h' => by
      have := hex f hf; linarith) s
    omega

end RepWiseYolo

namespace RepWise

theorem run_air_mono (frames : List (ℚ × ℚ)) :
    ∀ s : ℕ × String × String, s.1 ≤ (run_air_squat frames s).1 := by
  induction frames with
  | nil => intro s; simp [run_air_squat]
  | cons f rest ih =>
    intro s
    obtain ⟨k, t⟩ := f
    rw [run_air_squat]
    refine le_trans ?_ (ih _)
    show s.1 ≤ (process_air_squat k t s.1 s.2.1 s.2.2).1
    rw [air_step_rep]; split_ifs <;> omega

theorem run_air_keep (frames : List (ℚ × ℚ))
    (h : ∀ f ∈ frames, ¬ f.1 < 95) :
    ∀ s : ℕ × String × String, s.2.1 ≠ "recovering" →
      (run_air_squat frames s).1 = s.1 ∧
      (run_air_squat frames s).2.1 = s.2.1 := by
  induction frames with
  | nil => intro s _; simp [run_air_squat]
  | cons f rest ih =>
    intro s hs
    obtain ⟨k, t⟩ := f
    have hk : ¬ k < 95 := h (k, t) (List.mem_cons_self _ _)
    have hstep1 : (process_air_squat k t s.1 s.2.1 s.2.2).1 = s.1 := by
      rw [air_step_rep, if_neg]; rintro ⟨hr, -⟩; exact hs hr
    have hstep2 : (process_air_squat k t s.1 s.2.1 s.2.2).2.1 = s.2.1 := by
      rw [air_step_state, if_neg, if_neg]
      · rintro ⟨hr, -⟩; exact hs hr
      · rintro ⟨-, h95⟩; exact hk h95
    have := ih (fun f hf => h f (List.mem_cons_of_mem _ hf))
      ((process_air_squat k t s.1 s.2.1 s.2.2).1,
        (process_air_squat k t s.1 s.2.1 s.2.2).2.1,
        (process_air_squat k t s.1 s.2.1 s.2.2).2.2.1)
      (by simpa [hstep2] using hs)
    rw [run_air_squat]
    refine ⟨?_, ?_⟩
    · simpa [hstep1] using this.1
    · simpa [hstep2] using this.2

theorem run_air_from_recovering (frames : List (ℚ × ℚ))
    (h : ∀ f ∈ frames, ¬ f.1 < 95) :
    ∀ s : ℕ × String × String, s.2.1 = "recovering" →
      (run_air_squat frames s).1 ≤ s.1 + 1 := by
  induction frames with
  | nil => intro s _; simp [run_air_squat]
  | cons f rest ih =>
    intro s hs
    obtain ⟨k, t⟩ := f
    have hrest : ∀ f ∈ rest, ¬ f.1 < 95 :=
      fun f hf => h f (List.mem_cons_of_mem _ hf)
    have hnd : s.2.1 ≠ "down" := by rw [hs]; simp
    rw [run_air_squat]
    by_cases hlk : 165 < k ∧ 100 < t
    · have hstep1 : (process_air_squat k t s.1 s.2.1 s.2.2).1 = s.1 + 1 := by
        rw [air_step_rep, if_pos ⟨hs, hlk.1, hlk.2⟩]
      have hstep2 : (process_air_squat k t s.1 s.2.1 s.2.2).2.1 = "up" := by
        rw [air_step_state, if_neg, if_pos ⟨hs, hlk.1, hlk.2⟩]
        rintro ⟨hd, -⟩; exact hnd hd
      have hk := run_air_keep rest hrest
        ((process_air_squat k t s.1 s.2.1 s.2.2).1,
          (process_air_squat k t s.1 s.2.1 s.2.2).2.1,
          (process_air_squat k t s.1 s.2.1 s.2.2).2.2.1)
        (by rw [hstep2]; simp)
      rw [hk.1, hstep1]
    · have hstep1 : (process_air_squat k t s.1 s.2.1 s.2.2).1 = s.1 := by
        rw [air_step_rep, if_neg]; rintro ⟨-, hk', ht'⟩; exact hlk ⟨hk', ht'⟩
      have hstep2 :
          (process_air_squat k t s.1 s.2.1 s.2.2).2.1 = "recovering" := by
        rw [air_step_state, if_neg, if_neg]
        · exact hs
        · rintro ⟨-, hk', ht'⟩; exact hlk ⟨hk', ht'⟩
        · rintro ⟨hd, -⟩; exact hnd hd
      have := ih hrest
        ((process_air_squat k t s.1 s.2.1 s.2.2).1,
          (process_air_squat k t s.1 s.2.1 s.2.2).2.1,
          (process_air_squat k t s.1 s.2.1 s.2.2).2.2.1)
        hstep2
      simp only at this
      omega

theorem run_air_no_lockout (frames : List (ℚ × ℚ))
    (h : ∀ f ∈ frames, ¬ 165 < f.1) :
    ∀ s : ℕ × String × String, (run_air_squat frames s).1 = s.1 := by
  induction frames with
  | nil => intro s; simp [run_air_squat]
  | cons f rest ih =>
    intro s
    obtain ⟨k, t⟩ := f
    have hk : ¬ 165 < k := h (k, t) (List.mem_cons_self _ _)
    have hstep1 : (process_air_squat k t s.1 s.2.1 s.2.2).1 = s.1 := by
      rw [air_step_rep, if_neg]; rintro ⟨-, h', -⟩; exact hk h'
    rw [run_air_squat,
      ih (fun f hf => h f (List.mem_cons_of_mem _ hf)) _]
    exact hstep1

theorem run_air_band (t : ℚ) (frames : List (ℚ × ℚ))
    (s : ℕ × String × String)
    (h : ∀ f ∈ frames, t - 1 ≤ f.1 ∧ f.1 ≤ t + 1) :
    (run_air_squat frames s).1 ≤ s.1 + 1 := by
  by_cases hex : ∃ f ∈ frames, 165 < f.1
  · obtain ⟨f₀, hf₀, h165⟩ := hex
    have ht : 164 < t := by have := (h f₀ hf₀).2; linarith
    have h95 : ∀ f ∈ frames, ¬ f.1 < 95 := by
      intro f hf h'
      have := (h f hf).1
      linarith
    by_cases hst : s.2.1 = "recovering"
    · exact run_air_from_recovering frames h95 s hst
    · have := run_air_keep frames h95 s hst
      omega
  · push_neg at hex
    have := run_air_no_lockout frames (fun f hf h' => by
      have := hex f hf; linarith) s
    omega

theorem run_air_stay_recovering (frames : List (ℚ × ℚ))
    (h : ∀ f ∈ frames, ¬ 165 < f.1) :
    ∀ s : ℕ × String × String, s.2.1 = "recovering" →
      (run_air_squat frames s).1 = s.1 ∧
      (run_air_squat frames s).2.1 = "recovering" := by
  induction frames with
  | nil => intro s hs; simp [run_air_squat, hs]
  | cons f rest ih =>
    intro s hs
    obtain ⟨k, t⟩ := f
    have hk : ¬ 165 < k := h (k, t) (List.mem_cons_self _ _)
    have hnd : s.2.1 ≠ "down" := by rw [hs]; simp
    have hstep1 : (process_air_squat k t s.1 s.2.1 s.2.2).1 = s.1 := by
      rw [air_step_rep, if_neg]; rintro ⟨-, h', -⟩; exact hk h'
    have hstep2 :
        (process_air_squat k t s.1 s.2.1 s.2.2).2.1 = "recovering" := by
      rw [air_step_state, if_neg, if_neg]
      · exact hs
      · rintro ⟨-, h', -⟩; exact hk h'
      · rintro ⟨hd, -⟩; exact hnd hd
    have := ih (fun f hf => h f (List.mem_cons_of_mem _ hf))
      ((process_air_squat k t s.1 s.2.1 s.2.2).1,
        (process_air_squat k t s.1 s.2.1 s.2.2).2.1,
        (process_air_squat k t s.1 s.2.1 s.2.2).2.2.1)
      hstep2
    rw [run_air_squat]
    refine ⟨?_, ?_⟩
    · simpa [hstep1] using this.1
    · exact this.2

end RepWise

namespace RepWiseYolo

theorem run_press_stay_recovering (frames : List PressFrame)
    (h : ∀ f ∈ frames, ¬ (140 < f.elbow ∧ f.raised)) :
    ∀ s : ℕ × String × String, s.2.1 = "recovering" →
      (run_shoulder_press frames s).1 = s.1 ∧
      (run_shoulder_press frames s).2.1 = "recovering" := by
  induction frames with
  | nil => intro s hs; simp [run_shoulder_press, hs]
  | cons f rest ih =>
    rintro ⟨r, st, fb⟩ hs
    simp only at hs
    subst hs
    have hf : ¬ (140 < f.elbow ∧ f.raised) := h f (List.mem_cons_self _ _)
    have hstep := press_step_recovering f.left_elbow_angle f.right_elbow_angle
      f.lsy f.lwy f.rsy f.rwy r fb hf
    have hrec := ih (fun f hf => h f (List.mem_cons_of_mem _ hf))
      ((process_shoulder_press f.left_elbow_angle f.right_elbow_angle
          f.lsy f.lwy f.rsy f.rwy r "recovering" fb).1,
        (process_shoulder_press f.left_elbow_angle f.right_elbow_angle
          f.lsy f.lwy f.rsy f.rwy r "recovering" fb).2.1,
        (process_shoulder_press f.left_elbow_angle f.right_elbow_angle
          f.lsy f.lwy f.rsy f.rwy r "recovering" fb).2.2.1)
      hstep.2
    rw [run_shoulder_press]
    constructor
    · simpa [hstep.1] using hrec.1
    · exact hrec.2

end RepWiseYolo

/-- C1: Rep monotonicity.  For each of the three rule modules
(`process_pushup`, `process_barbell_squat`, `process_air_squat`): a
single invocation changes the rep counter by 0 or exactly +1, and the +1
occurs only on the qualifying transition into the `"up"` phase; over any
finite frame sequence the counter is non-decreasing; and a primary
metric oscillating within ±1° of any single threshold value yields at
most one increment. -/
theorem C1_rep_monotonicity :
    (∀ (e b : ℚ) (r : ℕ) (st fb : String),
      (RepWise.process_pushup e b r st fb).1 = r ∨
        ((RepWise.process_pushup e b r st fb).1 = r + 1 ∧
          (RepWise.process_pushup e b r st fb).2.1 = "up" ∧
          st = "down" ∧ 160 < e)) ∧
    (∀ (k b : ℚ) (r : ℕ) (st fb : String),
      (RepWiseYolo.process_barbell_squat k b r st fb).1 = r ∨
        ((RepWiseYolo.process_barbell_squat k b r st fb).1 = r + 1 ∧
          (RepWiseYolo.process_barbell_squat k b r st fb).2.1 = "up" ∧
          st = "down" ∧ 160 < k)) ∧
    (∀ (k t : ℚ) (r : ℕ) (st fb : String),
      (RepWise.process_air_squat k t r st fb).1 = r ∨
        ((RepWise.process_air_squat k t r st fb).1 = r + 1 ∧
          (RepWise.process_air_squat k t r st fb).2.1 = "up" ∧
          st = "recovering" ∧ 165 < k ∧ 100 < t)) ∧
    (∀ (frames : List (ℚ × ℚ)) (s : ℕ × String × String),
      s.1 ≤ (RepWise.run_pushup frames s).1) ∧
    (∀ (frames : List (ℚ × ℚ)) (s : ℕ × String × String),
      s.1 ≤ (RepWiseYolo.run_barbell_squat frames s).1) ∧
    (∀ (frames : List (ℚ × ℚ)) (s : ℕ × String × String),
      s.1 ≤ (RepWise.run_air_squat frames s).1) ∧
    (∀ (t : ℚ) (frames : List (ℚ × ℚ)) (s : ℕ × String × String),
      (∀ f ∈ frames, t - 1 ≤ f.1 ∧ f.1 ≤ t + 1) →
        (RepWise.run_pushup frames s).1 ≤ s.1 + 1) ∧
    (∀ (t : ℚ) (frames : List (ℚ × ℚ)) (s : ℕ × String × String),
      (∀ f ∈ frames, t - 1 ≤ f.1 ∧ f.1 ≤ t + 1) →
        (RepWiseYolo.run_barbell_squat frames s).1 ≤ s.1 + 1) ∧
    (∀ (t : ℚ) (frames : List (ℚ × ℚ)) (s : ℕ × String × String),
      (∀ f ∈ frames, t - 1 ≤ f.1 ∧ f.1 ≤ t + 1) →
        (RepWise.run_air_squat frames s).1 ≤ s.1 + 1) := by
  refine ⟨?_, ?_, ?_, RepWise.run_pushup_mono, RepWiseYolo.run_barbell_mono,
    RepWise.run_air_mono, RepWise.run_pushup_band,
    RepWiseYolo.run_barbell_band, RepWise.run_air_band⟩
  · intro e b r st fb
    by_cases h : 160 < e ∧ st = "down"
    · refine Or.inr ⟨?_, ?_, h.2, h.1⟩
      · rw [RepWise.pushup_step_rep, if_pos h]
      · rw [RepWise.pushup_step_state, if_neg, if_pos h]
        rintro ⟨h90, -⟩; linarith [h.1]
    · exact Or.inl (by rw [RepWise.pushup_step_rep, if_neg h])
  · intro k b r st fb
    by_cases h : 160 < k ∧ st = "down"
    · refine Or.inr ⟨?_, ?_, h.2, h.1⟩
      · rw [RepWiseYolo.barbell_step_rep, if_pos h]
      · rw [RepWiseYolo.barbell_step_state, if_neg, if_pos h]
        rintro ⟨h90, -⟩; linarith [h.1]
    · exact Or.inl (by rw [RepWiseYolo.barbell_step_rep, if_neg h])
  · intro k t r st fb
    by_cases h : st = "recovering" ∧ 165 < k ∧ 100 < t
    · refine Or.inr ⟨?_, ?_, h.1, h.2.1, h.2.2⟩
      · rw [RepWise.air_step_rep, if_pos h]
      · rw [RepWise.air_step_state, if_neg, if_pos h]
        rintro ⟨hd, -⟩; rw [h.1] at hd; simp at hd
    · exact Or.inl (by rw [RepWise.air_step_rep, if_neg h])

/-- Witness for C1: feeding the push-up module an elbow metric that
oscillates ±1° around the 160° lockout threshold yields at most one
increment. -/
theorem C1_rep_monotonicity_witness :
    (∀ f ∈ [((159:ℚ), (170:ℚ)), (161, 170), (159, 170), (161, 170)],
      (160:ℚ) - 1 ≤ f.1 ∧ f.1 ≤ 160 + 1) ∧
    (RepWise.run_pushup
      [((159:ℚ), (170:ℚ)), (161, 170), (159, 170), (161, 170)]
      (0, "up", "")).1 ≤ 0 + 1 :=
  ⟨by norm_num [List.forall_mem_cons],
    C1_rep_monotonicity.2.2.2.2.2.2.1 160
      [((159:ℚ), (170:ℚ)), (161, 170), (159, 170), (161, 170)]
      (0, "up", "") (by norm_num [List.forall_mem_cons])⟩

/-- C2: Three-phase reversal safety.  In `process_air_squat` and
`process_shoulder_press`, a frame whose primary metric is back below the
depth threshold while the phase is `"recovering"` neither increments the
rep counter nor re-enters `"down"`; and over any frame sequence that
never reaches the lockout condition the module remains in `"recovering"`
with the rep counter unchanged. -/
theorem C2_three_phase_reversal_safety :
    (∀ (k t : ℚ) (r : ℕ) (fb : String), k < 95 →
      (RepWise.process_air_squat k t r "recovering" fb).1 = r ∧
      (RepWise.process_air_squat k t r "recovering" fb).2.1 =
        "recovering") ∧
    (∀ (le re lsy lwy rsy rwy : ℚ) (r : ℕ) (fb : String),
      (le + re) / 2 < 130 →
      (RepWiseYolo.process_shoulder_press le re lsy lwy rsy rwy r
          "recovering" fb).1 = r ∧
      (RepWiseYolo.process_shoulder_press le re lsy lwy rsy rwy r
          "recovering" fb).2.1 = "recovering") ∧
    (∀ (frames : List (ℚ × ℚ)) (s : ℕ × String × String),
      (∀ f ∈ frames, ¬ 165 < f.1) → s.2.1 = "recovering" →
      (RepWise.run_air_squat frames s).1 = s.1 ∧
      (RepWise.run_air_squat frames s).2.1 = "recovering") ∧
    (∀ (frames : List RepWiseYolo.PressFrame) (s : ℕ × String × String),
      (∀ f ∈ frames, ¬ (140 < f.elbow ∧ f.raised)) →
        s.2.1 = "recovering" →
      (RepWiseYolo.run_shoulder_press frames s).1 = s.1 ∧
      (RepWiseYolo.run_shoulder_press frames s).2.1 = "recovering") := by
  refine ⟨?_, ?_,
    fun frames s h hs => RepWise.run_air_stay_recovering frames h s hs,
    fun frames s h hs =>
      RepWiseYolo.run_press_stay_recovering frames h s hs⟩
  · intro k t r fb hk
    constructor
    · rw [RepWise.air_step_rep, if_neg]
      rintro ⟨-, h165, -⟩; linarith
    · rw [RepWise.air_step_state, if_neg, if_neg]
      · rintro ⟨-, h165, -⟩; linarith
      · rintro ⟨hd, -⟩; simp at hd
  · intro le re lsy lwy rsy rwy r fb hl
    exact RepWiseYolo.press_step_recovering le re lsy lwy rsy rwy r fb
      (by rintro ⟨h140, -⟩; linarith)

/-- Witness for C2: an air-squat frame at knee angle 90° (below the 95°
depth threshold) in the `"recovering"` phase keeps the phase and the rep
counter. -/
theorem C2_three_phase_reversal_safety_witness :
    ((90:ℚ) < 95) ∧
    ((RepWise.process_air_squat 90 120 3 "recovering" "x").1 = 3 ∧
      (RepWise.process_air_squat 90 120 3 "recovering" "x").2.1 =
        "recovering") :=
  ⟨by norm_num,
    C2_three_phase_reversal_safety.1 90 120 3 "x" (by norm_num)⟩

/-- C3: Quorum gating.  In both session drivers, whenever any anchor
joint's confidence is at or below 0.5, the frame is processed without
invoking the selected rule module (the result does not depend on it),
the phase is reset to the initial `"up"`, the rep counter is unchanged
and the feedback is the reacquire-pose message. -/
theorem C3_quorum_gating :
    (∀ (proc : ℕ → String → String → ℕ × String × String)
        (n la ra : ℚ) (r : ℕ) (st fb : String),
      (n ≤ 1/2 ∨ la ≤ 1/2 ∨ ra ≤ 1/2) →
        RepWise.run_live_mode_step proc n la ra r st fb =
          (r, "up", "CENTER AND SHOW ENTIRE BODY")) ∧
    (∀ (proc : ℕ → String → String → ℕ × String × String)
        (n la ra : ℚ) (r : ℕ) (st fb : String),
      (n ≤ 1/2 ∨ la ≤ 1/2 ∨ ra ≤ 1/2) →
        RepWiseYolo.run_live_mode_step_fullbody proc n la ra r st fb =
          (r, "up", "CENTER AND SHOW ENTIRE BODY")) ∧
    (∀ (proc : ℕ → String → String → ℕ × String × String)
        (n ls rs lw rw : ℚ) (r : ℕ) (st fb : String),
      (n ≤ 1/2 ∨ ls ≤ 1/2 ∨ rs ≤ 1/2 ∨ lw ≤ 1/2 ∨ rw ≤ 1/2) →
        RepWiseYolo.run_live_mode_step_upperbody proc n ls rs lw rw r st fb =
          (r, "up", "CENTER TORSO AND ARMS")) := by
  refine ⟨?_, ?_, ?_⟩
  · intro proc n la ra r st fb h
    rw [RepWise.run_live_mode_step, if_neg]
    rintro ⟨h1, h2, h3⟩
    rcases h with h | h | h <;> linarith
  · intro proc n la ra r st fb h
    rw [RepWiseYolo.run_live_mode_step_fullbody, if_neg]
    rintro ⟨h1, h2, h3⟩
    rcases h with h | h | h <;> linarith
  · intro proc n ls rs lw rw r st fb h
    rw [RepWiseYolo.run_live_mode_step_upperbody, if_neg]
    rintro ⟨h1, h2, h3, h4, h5⟩
    rcases h with h | h | h | h | h <;> linarith

/-- Witness for C3: with nose confidence 0.4 the driver ignores a module
that would otherwise change every component, keeps the rep counter at 5
and resets the phase. -/
theorem C3_quorum_gating_witness :
    ((2:ℚ)/5 ≤ 1/2 ∨ (1:ℚ) ≤ 1/2 ∨ (1:ℚ) ≤ 1/2) ∧
    RepWise.run_live_mode_step (fun r _ _ => (r + 7, "x", "y"))
        (2/5) 1 1 5 "down" "z" =
      (5, "up", "CENTER AND SHOW ENTIRE BODY") :=
  ⟨Or.inl (by norm_num),
    C3_quorum_gating.1 (fun r _ _ => (r + 7, "x", "y")) (2/5) 1 1 5
      "down" "z" (Or.inl (by norm_num))⟩

/-- C4 counterexample: in the RepWise (MediaPipe) variant of
`calculate_angle`, the degenerate call `calculate_angle(a, a, c)` does
not return the 0° sentinel: at `a = (0,0,0)`, `c = (1,0,0)` it returns
90°, because the epsilon-guarded cosine evaluates to 0 and
`arccos 0 = π/2`. -/
theorem C4_angle_degeneracy_counterexample :
    RepWise.calculate_angle (0, 0, 0) (0, 0, 0) (1, 0, 0) ≠ 0 := by
  have h : RepWise.calculate_angle (0, 0, 0) (0, 0, 0) (1, 0, 0) = 90 := by
    simp only [RepWise.calculate_angle, vsub, vmag, dotProd, clip1]
    norm_num [Real.sqrt_zero, Real.arccos_zero]
    field_simp
    ring
  rw [h]
  norm_num

/-- C4 amended: for all positions `a`, `c`, the degenerate call
`calculate_angle(a, a, c)` does not raise in either variant; the
RepWiseYolo variant returns the 0° sentinel via its explicit
zero-magnitude guard, while the RepWise variant — whose only guard is
the `1e-6` epsilon added to the denominator — returns 90°
(`arccos` of the clipped cosine 0). -/
theorem C4_angle_degeneracy_amended (a c : Vec3) :
    RepWiseYolo.calculate_angle a a c = 0 ∧
    RepWise.calculate_angle a a c = 90 := by
  constructor
  · simp [RepWiseYolo.calculate_angle, vsub, vmag, dotProd]
  · simp [RepWise.calculate_angle, vsub, vmag, dotProd, clip1,
      Real.arccos_zero]
    field_simp
    ring

/-- C5 counterexample: the RepWise accessors do not return a sentinel on
bad input — `get_landmark_3d` raises `KeyError` (embedded as an `error`
result) for the unrecognized name `"NOT_A_JOINT"`, and raises
`IndexError` for `"LEFT_SHOULDER"` (index 11) on an empty landmark
list. -/
theorem C5_safe_lookup_counterexample :
    RepWise.get_landmark_3d [] "NOT_A_JOINT" = Except.error "KeyError" ∧
    RepWise.get_landmark_3d [] "LEFT_SHOULDER" =
      Except.error "IndexError" ∧
    RepWise.get_landmark_coords [] "NOT_A_JOINT" 640 480 =
      Except.error "KeyError" := by
  refine ⟨?_, ?_, ?_⟩ <;> rfl

/-- C5 amended: only the RepWiseYolo accessors return the sentinels
(`[0,0,0]` and `(0,0)`) for an unrecognized part name or an index beyond
the landmark array; the RepWise accessors raise (`KeyError` on an
unknown name, `IndexError` on an out-of-range index) instead of
returning a sentinel. -/
theorem C5_safe_lookup_amended (part : String) :
    (∀ (lms : List RepWiseYolo.Keypoint),
      RepWiseYolo.YOLO_KEYPOINT_MAP part = none →
        RepWiseYolo.get_landmark_3d lms part = (0, 0, 0) ∧
        ∀ w h, RepWiseYolo.get_landmark_coords lms part w h = (0, 0)) ∧
    (∀ (lms : List RepWiseYolo.Keypoint) (i : ℕ),
      RepWiseYolo.YOLO_KEYPOINT_MAP part = some i → lms.length ≤ i →
        RepWiseYolo.get_landmark_3d lms part = (0, 0, 0) ∧
        ∀ w h, RepWiseYolo.get_landmark_coords lms part w h = (0, 0)) ∧
    (∀ (lms : List RepWise.Landmark),
      RepWise.poseLandmarkIndex part = none →
        RepWise.get_landmark_3d lms part = Except.error "KeyError" ∧
        ∀ w h, RepWise.get_landmark_coords lms part w h =
          Except.error "KeyError") ∧
    (∀ (lms : List RepWise.Landmark) (i : ℕ),
      RepWise.poseLandmarkIndex part = some i → lms.length ≤ i →
        RepWise.get_landmark_3d lms part = Except.error "IndexError" ∧
        ∀ w h, RepWise.get_landmark_coords lms part w h =
          Except.error "IndexError") := by
  refine ⟨?_, ?_, ?_, ?_⟩
  · intro lms hnone
    refine ⟨?_, ?_⟩
    · simp [RepWiseYolo.get_landmark_3d, hnone]
    · intro w h
      simp [RepWiseYolo.get_landmark_coords, hnone]
  · intro lms i hsome hlen
    have hget : lms[i]? = none := List.getElem?_eq_none hlen
    refine ⟨?_, ?_⟩
    · simp [RepWiseYolo.get_landmark_3d, hsome, hget]
    · intro w h
      simp [RepWiseYolo.get_landmark_coords, hsome, hget]
  · intro lms hnone
    refine ⟨?_, ?_⟩
    · simp [RepWise.get_landmark_3d, hnone]
    · intro w h
      simp [RepWise.get_landmark_coords, hnone]
  · intro lms i hsome hlen
    have hget : lms[i]? = none := List.getElem?_eq_none hlen
    refine ⟨?_, ?_⟩
    · simp [RepWise.get_landmark_3d, hsome, hget]
    · intro w h
      simp [RepWise.get_landmark_coords, hsome, hget]

/-- Witness for C5 amended: the YOLO accessor returns the `[0,0,0]`
sentinel for the unrecognized name `"NOT_A_JOINT"`, and the RepWise
accessor errors for `"LEFT_SHOULDER"` on an empty landmark list. -/
theorem C5_safe_lookup_amended_witness :
    (RepWiseYolo.YOLO_KEYPOINT_MAP "NOT_A_JOINT" = none →
      RepWiseYolo.get_landmark_3d [] "NOT_A_JOINT" = (0, 0, 0) ∧
      ∀ w h, RepWiseYolo.get_landmark_coords [] "NOT_A_JOINT" w h =
        (0, 0)) ∧
    (RepWise.poseLandmarkIndex "LEFT_SHOULDER" = some 11 →
      ([] : List RepWise.Landmark).length ≤ 11 →
      RepWise.get_landmark_3d [] "LEFT_SHOULDER" =
        Except.error "IndexError" ∧
      ∀ w h, RepWise.get_landmark_coords [] "LEFT_SHOULDER" w h =
        Except.error "IndexError") :=
  ⟨fun h => (C5_safe_lookup_amended "NOT_A_JOINT").1 [] h,
    fun h hl => (C5_safe_lookup_amended "LEFT_SHOULDER").2.2.2 [] 11 h hl⟩

/-- C6: feedback priority is violated on the rep-completion branch.  For
a push-up frame with a bent back (`back_angle = 150 < 160`, so the
safety message "Keep your back straight!" is set) and elbows locked out
from the `"down"` phase, the returned feedback is the lower-priority
"Rep Complete!"; likewise the barbell squat with a rounded back
(`back_angle = 70 < 80`) returns "Rep Complete!" on lockout. -/
theorem C6_feedback_priority_violation :
    (150:ℚ) < 160 ∧
    RepWise.process_pushup 170 150 5 "down" "" =
      (6, "up", "Rep Complete!") ∧
    (70:ℚ) < 80 ∧
    RepWiseYolo.process_barbell_squat 170 70 5 "down" "" =
      (6, "up", "Rep Complete!") := by
  refine ⟨by norm_num, ?_, by norm_num, ?_⟩
  · norm_num [RepWise.process_pushup]
  · norm_num [RepWiseYolo.process_barbell_squat]

/-- Distance of Python 3 rounding from its argument: at most 1/2. -/
theorem pyRound_close (m : ℚ) : |(pyRound m : ℚ) - m| ≤ 1 / 2 := by
  have h1 : (⌊m⌋ : ℚ) ≤ m := Int.floor_le m
  have h2 : m < ⌊m⌋ + 1 := Int.lt_floor_add_one m
  simp only [pyRound]
  split_ifs <;> rw [abs_le] <;> push_cast <;> constructor <;> linarith

/-- On a positive argument `fround` is the rounded 53-bit significand
rescaled to its binade. -/
theorem fround_pos_eq (q : ℚ) (hq : 0 < q) :
    fround q = pyRound (q / 2 ^ (Int.log 2 q - 52)) *
      2 ^ (Int.log 2 q - 52) := by
  simp only [fround]
  rw [if_neg hq.ne', if_neg (not_lt.mpr hq.le), abs_of_pos hq, one_mul]

/-- Relative error of binary64 rounding, in multiplicative form: the
rounded value times 2^53 lies within one unit of `q` times 2^53. -/
theorem fround_bounds (q : ℚ) (hq : 0 < q) :
    q * 9007199254740991 ≤ fround q * 9007199254740992 ∧
    fround q * 9007199254740992 ≤ q * 9007199254740993 := by
  have hlo : (2:ℚ) ^ (Int.log 2 q) ≤ q := Int.zpow_log_le_self (by norm_num) hq
  set E : ℚ := 2 ^ (Int.log 2 q - 52) with hEdef
  have hE : (0:ℚ) < E := by
    rw [hEdef]; exact zpow_pos (by norm_num) _
  have hE52 : E * 4503599627370496 = 2 ^ Int.log 2 q := by
    rw [hEdef, show (4503599627370496:ℚ) = 2 ^ (52:ℤ) by norm_num,
      ← zpow_add₀ (by norm_num : (2:ℚ) ≠ 0)]
    norm_num
  have hEq : E * 4503599627370496 ≤ q := by rw [hE52]; exact hlo
  have hqm : q / E * E = q := div_mul_cancel₀ q hE.ne'
  have hcl := pyRound_close (q / E)
  rw [abs_le] at hcl
  have heq : fround q = (pyRound (q / E) : ℚ) * E := by
    rw [fround_pos_eq q hq, hEdef]
  have hub : ((pyRound (q / E) : ℚ) - q / E) * E ≤ 1/2 * E :=
    mul_le_mul_of_nonneg_right hcl.2 hE.le
  have hlb : (-(1/2)) * E ≤ ((pyRound (q / E) : ℚ) - q / E) * E :=
    mul_le_mul_of_nonneg_right hcl.1 hE.le
  constructor <;> nlinarith [hub, hlb, hEq, hqm, heq, hE]

/-- Computes `fround` at a concrete positive input once its binade and
rounded significand are exhibited. -/
theorem fround_eq_of_bounds {q : ℚ} {L : ℤ} {m : ℤ} (hq : 0 < q)
    (h1 : (2:ℚ) ^ L ≤ q) (h2 : q < (2:ℚ) ^ (L + 1))
    (hm : pyRound (q / 2 ^ (L - 52)) = m) :
    fround q = m * 2 ^ (L - 52) := by
  have hL : Int.log 2 q = L := by
    have hge : L ≤ Int.log 2 q :=
      (Int.zpow_le_iff_le_log (by norm_num) hq).mp (by exact_mod_cast h1)
    have hlt : Int.log 2 q < L + 1 :=
      (Int.lt_zpow_iff_log_lt (by norm_num) hq).mp (by exact_mod_cast h2)
    omega
  rw [fround_pos_eq q hq, hL, hm]

/-- The binary64 value of `2/3` (the double CPython computes for
`2 / 3`). -/
theorem fround_two_thirds :
    fround ((2:ℚ)/3) = 6004799503160661 / 9007199254740992 := by
  have h := @fround_eq_of_bounds ((2:ℚ)/3) (-1) 6004799503160661
    (by norm_num) (by norm_num) (by norm_num) (by norm_num [pyRound])
  rw [h]; norm_num

/-- The binary64 value of `float(2/3) * 100`: just below `200/3`. -/
theorem fround_two_thirds_mul100 :
    fround (fround ((2:ℚ)/3) * 100) = 2345624805922133 / 35184372088832 := by
  rw [fround_two_thirds]
  have h := @fround_eq_of_bounds
    ((6004799503160661 / 9007199254740992 : ℚ) * 100) 6 4691249611844266
    (by norm_num) (by norm_num) (by norm_num) (by norm_num [pyRound])
  rw [h]; norm_num

/-- The binary64 value of `29/100` (strictly below the exact `0.29`). -/
theorem fround_29_100 :
    fround ((29:ℚ)/100) = 5224175567749775 / 18014398509481984 := by
  have h := @fround_eq_of_bounds ((29:ℚ)/100) (-2) 5224175567749775
    (by norm_num) (by norm_num) (by norm_num) (by norm_num [pyRound])
  rw [h]; norm_num

/-- The binary64 value of `float(29/100) * 100`: exactly `29 - 2^(-48)`,
whose truncation is 28. -/
theorem fround_29_100_mul100 :
    fround (fround ((29:ℚ)/100) * 100) =
      8162774324609023 / 281474976710656 := by
  rw [fround_29_100]
  have h := @fround_eq_of_bounds
    ((5224175567749775 / 18014398509481984 : ℚ) * 100) 4 8162774324609023
    (by norm_num) (by norm_num) (by norm_num) (by norm_num [pyRound])
  rw [h]; norm_num

/-- The truncated binary64 score lies within one below the exact floor:
for `g ≤ f` frames (any session of at most 2^44 = 17592186044416
frames), `int(float(g/f) * 100.0)` is `⌊100g/f⌋` or `⌊100g/f⌋ - 1`. -/
theorem float_score_floor_bounds (g f : ℕ) (hf : f ≠ 0) (hgf : g ≤ f)
    (hf44 : f ≤ 17592186044416) :
    ⌊(100 * g : ℚ) / f⌋ - 1 ≤ pyInt (fround (fround ((g:ℚ)/(f:ℚ)) * 100)) ∧
    pyInt (fround (fround ((g:ℚ)/(f:ℚ)) * 100)) ≤ ⌊(100 * g : ℚ) / f⌋ := by
  have hf0 : (0:ℚ) < f := by
    exact_mod_cast Nat.pos_of_ne_zero hf
  by_cases hg : g = 0
  · subst hg
    norm_num [fround, pyInt]
  · have hg0 : 0 < g := Nat.pos_of_ne_zero hg
    set q : ℚ := (g:ℚ)/f with hqdef
    have hq : 0 < q := div_pos (by exact_mod_cast hg0) hf0
    have hq1 : q ≤ 1 := by
      rw [hqdef, div_le_one hf0]
      exact_mod_cast hgf
    obtain ⟨hd1, hd2⟩ := fround_bounds q hq
    set q1 : ℚ := fround q with hq1def
    have hq1pos : 0 < q1 := by nlinarith
    have hy : 0 < q1 * 100 := by positivity
    obtain ⟨he1, he2⟩ := fround_bounds (q1 * 100) hy
    set x : ℚ := fround (q1 * 100) with hxdef
    have t1 : x * 9007199254740992 * 9007199254740992 ≤
        q1 * 100 * 9007199254740993 * 9007199254740992 :=
      mul_le_mul_of_nonneg_right he2 (by norm_num)
    have t2 : q1 * 9007199254740992 * (100 * 9007199254740993) ≤
        q * 9007199254740993 * (100 * 9007199254740993) :=
      mul_le_mul_of_nonneg_right hd2 (by norm_num)
    have t3 : q1 * 100 * 9007199254740991 * 9007199254740992 ≤
        x * 9007199254740992 * 9007199254740992 :=
      mul_le_mul_of_nonneg_right he1 (by norm_num)
    have t4 : q * 9007199254740991 * (100 * 9007199254740991) ≤
        q1 * 9007199254740992 * (100 * 9007199254740991) :=
      mul_le_mul_of_nonneg_right hd1 (by norm_num)
    have hxu : x * 81129638414606681695789005144064 ≤
        100 * q * 81129638414606681695789005144064 +
          300 * 9007199254740992 := by nlinarith
    have hxl : 100 * q * 81129638414606681695789005144064 -
          300 * 9007199254740992 ≤
        x * 81129638414606681695789005144064 := by nlinarith
    have hq_lb : 1 / 17592186044416 ≤ q := by
      have h1 : (1:ℚ) ≤ g := by exact_mod_cast hg0
      have h2 : (f:ℚ) ≤ 17592186044416 := by exact_mod_cast hf44
      calc (1:ℚ) / 17592186044416 ≤ 1 / f :=
            one_div_le_one_div_of_le hf0 h2
        _ ≤ (g:ℚ) / f := (div_le_div_iff_of_pos_right hf0).mpr h1
    have hx0 : 0 ≤ x := by nlinarith
    have hpy : pyInt x = ⌊x⌋ := by rw [pyInt, if_pos hx0]
    have hv : (100 * g : ℚ) / f = 100 * q := by
      rw [hqdef]; ring
    rw [hv, hpy]
    have hfl : (⌊(100 * q : ℚ)⌋ : ℚ) ≤ 100 * q := Int.floor_le _
    constructor
    · refine Int.le_floor.mpr ?_
      push_cast
      nlinarith
    · have hvint : (100 * q) * f = 100 * g := by
        rw [hqdef]; field_simp
      have h1 : (100 * q : ℚ) < ⌊(100 * q : ℚ)⌋ + 1 := Int.lt_floor_add_one _
      have h2 : (100 * q) * f < ((⌊(100 * q : ℚ)⌋ : ℚ) + 1) * f :=
        mul_lt_mul_of_pos_right h1 hf0
      rw [hvint] at h2
      have h3 : (100 * g : ℤ) < (⌊(100 * q : ℚ)⌋ + 1) * f := by
        exact_mod_cast h2
      have h4 : (100 * g : ℤ) + 1 ≤ (⌊(100 * q : ℚ)⌋ + 1) * f :=
        Int.add_one_le_iff.mpr h3
      have h5 : (100 * g : ℚ) + 1 ≤ ((⌊(100 * q : ℚ)⌋ : ℚ) + 1) * f := by
        exact_mod_cast h4
      have hf2 : (f:ℚ) ≤ 17592186044416 := by exact_mod_cast hf44
      have t5 : x * 81129638414606681695789005144064 * f ≤
          (100 * q * 81129638414606681695789005144064 +
            300 * 9007199254740992) * f :=
        mul_le_mul_of_nonneg_right hxu hf0.le
      have t6 : ((100 * g : ℚ) + 1) * 81129638414606681695789005144064 ≤
          ((⌊(100 * q : ℚ)⌋ : ℚ) + 1) * f *
            81129638414606681695789005144064 :=
        mul_le_mul_of_nonneg_right h5 (by norm_num)
      have hbig : x * ((f : ℚ) * 81129638414606681695789005144064) <
          ((⌊(100 * q : ℚ)⌋ : ℚ) + 1) *
            ((f : ℚ) * 81129638414606681695789005144064) := by
        nlinarith
      have hxlt : x < (⌊(100 * q : ℚ)⌋ : ℚ) + 1 :=
        lt_of_mul_lt_mul_right hbig (by positivity)
      exact Int.floor_le_iff.mpr (by exact_mod_cast hxlt)

/-- C7 counterexample: with 3 logged frames of which 2 had good form,
both `get_analysis_summary` implementations compute
`int((2/3) * 100)` — in binary64 arithmetic this is `int(66.6466...)`,
i.e. 66 — while rounding the exact ratio to the nearest integer gives
`round(200/3) = 67`; the form score is truncated, not rounded. -/
theorem C7_form_score_counterexample :
    RepWise.WorkoutAnalyzer.form_score ⟨0, 0, [], 3, 2, 1, 0, 0, 0⟩ =
      some 66 ∧
    RepWiseYolo.WorkoutAnalyzer.form_score
      ⟨0, 0, [], 3, 2, 1, 0, 0, 0, 0⟩ = some 66 ∧
    pyRound ((100 * 2 : ℚ) / 3) = 67 ∧ (66:ℤ) ≠ 67 := by
  have hev : pyInt (fround (fround ((2:ℚ)/3) * 100)) = 66 := by
    rw [fround_two_thirds_mul100]
    norm_num [pyInt]
  refine ⟨?_, ?_, ?_, by norm_num⟩
  · rw [RepWise.WorkoutAnalyzer.form_score, if_neg (by norm_num)]
    norm_num
    exact hev
  · rw [RepWiseYolo.WorkoutAnalyzer.form_score, if_neg (by norm_num)]
    norm_num
    exact hev
  · norm_num [pyRound]

/-- C7 amended: for every analyzer state with `frame_count > 0` (with
`good_form_frames ≤ frame_count` and a session of at most
2^44 = 17592186044416 frames), both implementations return `form_score =
int((good_form_frames / frame_count) * 100)` evaluated in binary64 and
truncated toward zero — the exact floor `⌊100·good/frames⌋` or one less
— not the ratio rounded to the nearest integer.  Both discrepancies are
realized: at 2 good of 3 frames the code returns 66 where round gives
67, and at 29 good of 100 frames the floating-point slip drops the
result to 28 where the exact floor (and round) give 29. -/
theorem C7_form_score_amended :
    (∀ a : RepWise.WorkoutAnalyzer, a.frame_count ≠ 0 →
      a.good_form_frames ≤ a.frame_count →
      a.frame_count ≤ 17592186044416 →
      ∃ n : ℤ, a.form_score = some n ∧
        ⌊(100 * a.good_form_frames : ℚ) / (a.frame_count : ℚ)⌋ - 1 ≤ n ∧
        n ≤ ⌊(100 * a.good_form_frames : ℚ) / (a.frame_count : ℚ)⌋) ∧
    (∀ a : RepWiseYolo.WorkoutAnalyzer, a.frame_count ≠ 0 →
      a.good_form_frames ≤ a.frame_count →
      a.frame_count ≤ 17592186044416 →
      ∃ n : ℤ, a.form_score = some n ∧
        ⌊(100 * a.good_form_frames : ℚ) / (a.frame_count : ℚ)⌋ - 1 ≤ n ∧
        n ≤ ⌊(100 * a.good_form_frames : ℚ) / (a.frame_count : ℚ)⌋) ∧
    RepWise.WorkoutAnalyzer.form_score ⟨0, 0, [], 100, 29, 71, 0, 0, 0⟩ =
      some 28 ∧
    RepWiseYolo.WorkoutAnalyzer.form_score
      ⟨0, 0, [], 100, 29, 71, 0, 0, 0, 0⟩ = some 28 ∧
    ⌊(100 * 29 : ℚ) / 100⌋ = 29 ∧ pyRound ((100 * 29 : ℚ) / 100) = 29 := by
  have hev29 : pyInt (fround (fround ((29:ℚ)/100) * 100)) = 28 := by
    rw [fround_29_100_mul100]
    norm_num [pyInt]
  refine ⟨?_, ?_, ?_, ?_, by norm_num, by norm_num [pyRound]⟩
  · intro a h hle h44
    refine ⟨pyInt (fround (fround
        ((a.good_form_frames : ℚ) / (a.frame_count : ℚ)) * 100)), ?_, ?_, ?_⟩
    · rw [RepWise.WorkoutAnalyzer.form_score, if_neg h]
    · exact (float_score_floor_bounds a.good_form_frames a.frame_count
        h hle h44).1
    · exact (float_score_floor_bounds a.good_form_frames a.frame_count
        h hle h44).2
  · intro a h hle h44
    refine ⟨pyInt (fround (fround
        ((a.good_form_frames : ℚ) / (a.frame_count : ℚ)) * 100)), ?_, ?_, ?_⟩
    · rw [RepWiseYolo.WorkoutAnalyzer.form_score, if_neg h]
    · exact (float_score_floor_bounds a.good_form_frames a.frame_count
        h hle h44).1
    · exact (float_score_floor_bounds a.good_form_frames a.frame_count
        h hle h44).2
  · rw [RepWise.WorkoutAnalyzer.form_score, if_neg (by norm_num)]
    norm_num
    exact hev29
  · rw [RepWiseYolo.WorkoutAnalyzer.form_score, if_neg (by norm_num)]
    norm_num
    exact hev29

/-- Witness for C7 amended: the 3-frame, 2-good analyzer state
satisfies the hypotheses and its score 66 lies between the exact floor
66 minus one and 66. -/
theorem C7_form_score_amended_witness :
    ((⟨0, 0, [], 3, 2, 1, 0, 0, 0⟩ :
        RepWise.WorkoutAnalyzer).frame_count ≠ 0) ∧
    (∃ n : ℤ, (⟨0, 0, [], 3, 2, 1, 0, 0, 0⟩ :
        RepWise.WorkoutAnalyzer).form_score = some n ∧
      ⌊(100 * (⟨0, 0, [], 3, 2, 1, 0, 0, 0⟩ :
          RepWise.WorkoutAnalyzer).good_form_frames : ℚ) /
        ((⟨0, 0, [], 3, 2, 1, 0, 0, 0⟩ :
          RepWise.WorkoutAnalyzer).frame_count : ℚ)⌋ - 1 ≤ n ∧
      n ≤ ⌊(100 * (⟨0, 0, [], 3, 2, 1, 0, 0, 0⟩ :
          RepWise.WorkoutAnalyzer).good_form_frames : ℚ) /
        ((⟨0, 0, [], 3, 2, 1, 0, 0, 0⟩ :
          RepWise.WorkoutAnalyzer).frame_count : ℚ)⌋) :=
  ⟨by decide, C7_form_score_amended.1 ⟨0, 0, [], 3, 2, 1, 0, 0, 0⟩
    (by decide) (by decide) (by decide)⟩

/-- C8: the plank module composed with the session-driver loop
over-accumulates held time.  Starting paused at accumulated 0 and
feeding visible good-form frames at times 10, 11, 12 (a single
continuous segment of 2 seconds), the driver's stored total reaches 3
because line 340 of main.py writes `base + live` back into the
accumulator each frame; after a form break at time 13 (3 seconds of
actual holding) the paused total is 6. -/
theorem C8_static_hold_overcount :
    RepWiseYolo.run_live_mode_plank_run
      [(10, true, true, true), (11, true, true, true),
        (12, true, true, true)] (0, 0) = (3, 10) ∧
    (3:ℚ) ≠ 12 - 10 ∧
    RepWiseYolo.run_live_mode_plank_run
      [(10, true, true, true), (11, true, true, true),
        (12, true, true, true), (13, true, true, false)] (0, 0) =
      (6, 0) ∧
    (6:ℚ) ≠ 13 - 10 := by
  refine ⟨?_, by norm_num, ?_, by norm_num⟩ <;>
    norm_num [RepWiseYolo.run_live_mode_plank_run,
      RepWiseYolo.run_live_mode_plank_step,
      RepWiseYolo.process_plank_timer]

namespace RepWise

theorem log_frames_partition_mp (frames : List (String × Bool)) :
    ∀ a : WorkoutAnalyzer,
      (a.log_frames frames).frame_count = a.frame_count + frames.length ∧
      (a.log_frames frames).good_form_frames +
          (a.log_frames frames).bad_form_frames =
        a.good_form_frames + a.bad_form_frames + frames.length := by
  induction frames with
  | nil => intro a; simp [WorkoutAnalyzer.log_frames]
  | cons f rest ih =>
    intro a
    obtain ⟨fb, g⟩ := f
    have := ih (a.log_frame fb g)
    rw [WorkoutAnalyzer.log_frames]
    cases g <;> simp [WorkoutAnalyzer.log_frame] at this ⊢ <;> omega

end RepWise

namespace RepWiseYolo

theorem log_frames_partition_yolo (frames : List (String × Bool)) :
    ∀ a : WorkoutAnalyzer,
      (a.log_frames frames).frame_count = a.frame_count + frames.length ∧
      (a.log_frames frames).good_form_frames +
          (a.log_frames frames).bad_form_frames =
        a.good_form_frames + a.bad_form_frames + frames.length := by
  induction frames with
  | nil => intro a; simp [WorkoutAnalyzer.log_frames]
  | cons f rest ih =>
    intro a
    obtain ⟨fb, g⟩ := f
    have := ih (a.log_frame fb g)
    rw [WorkoutAnalyzer.log_frames]
    cases g <;> simp [WorkoutAnalyzer.log_frame] at this ⊢ <;> omega

end RepWiseYolo

/-- C9: frame-count partition invariant.  Each `log_frame` call
increments `frame_count` by exactly 1, and after any sequence of
`log_frame` calls from a freshly reset analyzer,
`good_form_frames + bad_form_frames = frame_count`, in both variants. -/
theorem C9_frame_partition :
    (∀ (a : RepWise.WorkoutAnalyzer) (fb : String) (g : Bool),
      (a.log_frame fb g).frame_count = a.frame_count + 1) ∧
    (∀ (a : RepWiseYolo.WorkoutAnalyzer) (fb : String) (g : Bool),
      (a.log_frame fb g).frame_count = a.frame_count + 1) ∧
    (∀ frames : List (String × Bool),
      (RepWise.WorkoutAnalyzer.reset.log_frames frames).good_form_frames +
          (RepWise.WorkoutAnalyzer.reset.log_frames
            frames).bad_form_frames =
        (RepWise.WorkoutAnalyzer.reset.log_frames frames).frame_count) ∧
    (∀ frames : List (String × Bool),
      (RepWiseYolo.WorkoutAnalyzer.reset.log_frames
            frames).good_form_frames +
          (RepWiseYolo.WorkoutAnalyzer.reset.log_frames
            frames).bad_form_frames =
        (RepWiseYolo.WorkoutAnalyzer.reset.log_frames
          frames).frame_count) := by
  refine ⟨?_, ?_, ?_, ?_⟩
  · intro a fb g; simp [RepWise.WorkoutAnalyzer.log_frame]
  · intro a fb g; simp [RepWiseYolo.WorkoutAnalyzer.log_frame]
  · intro frames
    have h := RepWise.log_frames_partition_mp frames
      RepWise.WorkoutAnalyzer.reset
    rw [h.1, h.2]
    simp [RepWise.WorkoutAnalyzer.reset]
  · intro frames
    have h := RepWiseYolo.log_frames_partition_yolo frames
      RepWiseYolo.WorkoutAnalyzer.reset
    rw [h.1, h.2]
    simp [RepWiseYolo.WorkoutAnalyzer.reset]

/-- An association-list lookup misses every key not in the key list. -/
theorem lookup_eq_none_of_not_mem {β : Type} :
    ∀ (l : List (String × β)) (k : String),
      k ∉ l.map Prod.fst → l.lookup k = none := by
  intro l
  induction l with
  | nil => intro k _; rfl
  | cons p rest ih =>
    intro k hk
    obtain ⟨a, b⟩ := p
    simp only [List.map, List.mem_cons, not_or] at hk
    rw [List.lookup]
    have : (k == a) = false := by
      simp only [beq_eq_false_iff_ne, ne_eq]
      exact hk.1
    rw [this]
    exact ih k hk.2

/-- C10: unknown-exercise fallback.  `get_exercise_processor` falls back
to the push-up processor for every name outside its 24 registered keys;
the registry has exactly 24 entries. -/
theorem C10_unknown_exercise_fallback :
    (∀ name : String,
      name ∉ RepWiseYolo.exercise_processor_table.map Prod.fst →
        RepWiseYolo.get_exercise_processor name = "process_pushup") ∧
    RepWiseYolo.exercise_processor_table.length = 24 := by
  constructor
  · intro name hname
    rw [RepWiseYolo.get_exercise_processor,
      lookup_eq_none_of_not_mem _ name hname]
    rfl
  · rfl

/-- Witness for C10: the unregistered name `"zumba"` yields the push-up
processor. -/
theorem C10_unknown_exercise_fallback_witness :
    ("zumba" ∉ RepWiseYolo.exercise_processor_table.map Prod.fst) ∧
    RepWiseYolo.get_exercise_processor "zumba" = "process_pushup" :=
  ⟨by decide, C10_unknown_exercise_fallback.1 "zumba" (by decide)⟩
